import Mathlib

/-!
Shallow embedding of the chain-manager core of the witnet node
(`src/node/src/actors/chain_manager/handlers.rs`), together with proofs of
the specified properties of the batch splitter, the peer-beacon consensus,
the unregister policy, and the state-machine transitions of the
epoch-tick, add-blocks and peers-beacons handlers.

Conventions:
* `u32` epochs and `u16` limits are modelled as `Nat` (the claims quantify
  over the mathematical, non-wrapping reading; all subtractions that occur
  are guarded in the source exactly where they are guarded here);
* hashes are opaque and modelled as `Nat`;
* the pieces of `ChainManager` that live outside the extracted source
  (storage, block processing, superblock construction, the transaction
  factory) are modelled as an abstract chain state `σ` together with a
  record of operations `ChainOps σ` over it, so every theorem about a
  handler is parametric in those collaborators;
* actor messages sent to other actors are modelled as an explicit list of
  `Effect`s returned by the handler.
-/

namespace Witnet

/-- `(epoch, hash_prev_block)` identifying a chain tip. -/
structure CheckpointBeacon where
  checkpoint : Nat
  hash_prev_block : Nat
deriving DecidableEq, Repr

instance : Inhabited CheckpointBeacon := ⟨⟨0, 0⟩⟩

/-- The unit of peer reporting: highest block beacon and highest superblock beacon. -/
structure LastBeacon where
  highest_block_checkpoint : CheckpointBeacon
  highest_superblock_checkpoint : CheckpointBeacon
deriving DecidableEq, Repr

/-- The `(block, superblock)` pair the node is racing toward. -/
structure SyncTarget where
  block : CheckpointBeacon
  superblock : CheckpointBeacon
deriving DecidableEq, Repr

/-- The part of a block header the chain manager handlers read. -/
structure BlockHeader where
  beacon : CheckpointBeacon
deriving DecidableEq, Repr

/-- A block: its header plus its (opaque, content-determined) hash,
modelling the value of Rust's `block.hash()`. -/
structure Block where
  block_header : BlockHeader
  hash : Nat
deriving DecidableEq, Repr

/-- The epoch (checkpoint) of a block. -/
def Block.epoch (b : Block) : Nat :=
  b.block_header.beacon.checkpoint

/-- The four states of the chain-manager state machine. -/
inductive StateMachine
  | WaitingConsensus
  | Synchronizing
  | AlmostSynced
  | Synced
deriving DecidableEq, Repr

/-- Model of Rust `Iterator::position`: the index of the first element
satisfying `p`, or `none`. -/
def position (p : α → Bool) : List α → Option Nat
  | [] => none
  | a :: l => if p a then some 0 else (position p l).map (· + 1)

/-- `Option (List α)` as a list, `none` counting as empty. -/
def optList : Option (List α) → List α
  | none => []
  | some l => l

/-- Embedding of `split_blocks_batch_at_target`: split the blocks batch
into 4 parts (pre-target blocks, the interval for superblock target+1, the
interval for target+2, and everything above), plus the next superblock
index.  Mirrors the source: three `position`/`split_off` passes, then the
three edge-case fixups turning a `None` part into `Some([])` when the
preceding part ends exactly at the threshold minus one. -/
def split_blocks_batch_at_target (blocks : List Block) (epoch : Nat)
    (sync_target : SyncTarget) (superblock_period : Nat) :
    List Block × Option (List Block) × Option (List Block) × Option (List Block) ×
      Option Nat :=
  let first_epoch_part_2 := sync_target.superblock.checkpoint * superblock_period
  let first_epoch_part_3 := (sync_target.superblock.checkpoint + 1) * superblock_period
  let first_epoch_part_4 := (sync_target.superblock.checkpoint + 2) * superblock_period
  let part_1 := blocks
  let (part_1, part_2) :=
    match position (fun (block : Block) => decide (first_epoch_part_2 ≤ block.epoch)) part_1 with
    | some i => (part_1.take i, some (part_1.drop i))
    | none => (part_1, none)
  let (part_2, part_3) :=
    match part_2 with
    | none => (none, none)
    | some l2 =>
      match position (fun (block : Block) => decide (first_epoch_part_3 ≤ block.epoch)) l2 with
      | some i => (some (l2.take i), some (l2.drop i))
      | none => (some l2, none)
  let (part_3, part_4) :=
    match part_3 with
    | none => (none, none)
    | some l3 =>
      match position (fun (block : Block) => decide (first_epoch_part_4 ≤ block.epoch)) l3 with
      | some i => (some (l3.take i), some (l3.drop i))
      | none => (some l3, none)
  let part_2 :=
    match part_2, part_1.getLast? with
    | none, some b =>
      if b.epoch = first_epoch_part_2 - 1 then some [] else none
    | p2, _ => p2
  let part_3 :=
    match part_3, part_2 with
    | none, some l2 =>
      match l2.getLast? with
      | some b => if b.epoch = first_epoch_part_3 - 1 then some [] else none
      | none => none
    | p3, _ => p3
  let part_4 :=
    match part_4, part_3 with
    | none, some l3 =>
      match l3.getLast? with
      | some b => if b.epoch = first_epoch_part_4 - 1 then some [] else none
      | none => none
    | p4, _ => p4
  let next_index :=
    if epoch / superblock_period = sync_target.superblock.checkpoint then none
    else some (epoch / superblock_period)
  (part_1, part_2, part_3, part_4, next_index)

/-- A block with a given epoch and content hash. -/
def mkBlock (e h : Nat) : Block :=
  { block_header := { beacon := { checkpoint := e, hash_prev_block := 0 } }, hash := h }

/-- A blocks batch sorted strictly ascending by epoch (hence all epochs distinct). -/
def epochSorted (l : List Block) : Prop :=
  List.Pairwise (fun a b => a.epoch < b.epoch) l

instance (l : List Block) : Decidable (epochSorted l) :=
  inferInstanceAs (Decidable (List.Pairwise _ l))

theorem position_eq_none (p : α → Bool) :
    ∀ l : List α, position p l = none → ∀ x ∈ l, p x = false := by
  intro l
  induction l with
  | nil => intro _ x hx; cases hx
  | cons a l ih =>
    intro h x hx
    by_cases ha : p a = true
    · simp [position, ha] at h
    · simp only [position, if_neg ha, Option.map_eq_none'] at h
      rcases List.mem_cons.mp hx with rfl | hx
      · cases hpa : p x
        · rfl
        · exact absurd hpa ha
      · exact ih h x hx

theorem position_sorted_take_drop (t : Nat) :
    ∀ l : List Block, epochSorted l →
      ∀ i, position (fun b => decide (t ≤ b.epoch)) l = some i →
        l.take i = l.filter (fun b => decide (b.epoch < t)) ∧
        l.drop i = l.filter (fun b => decide (t ≤ b.epoch)) := by
  intro l
  induction l with
  | nil => intro _ i h; simp [position] at h
  | cons a l ih =>
    intro hs i h
    rw [epochSorted, List.pairwise_cons] at hs
    by_cases ha : t ≤ a.epoch
    · have h0 : i = 0 := by simp [position, ha] at h; omega
      subst h0
      constructor
      · rw [List.take_zero, eq_comm, List.filter_eq_nil_iff]
        intro x hx
        rcases List.mem_cons.mp hx with rfl | hx
        · simp; omega
        · have hax := hs.1 x hx
          simp; omega
      · rw [List.drop_zero, eq_comm, List.filter_eq_self]
        intro x hx
        rcases List.mem_cons.mp hx with rfl | hx
        · simp; omega
        · have hax := hs.1 x hx
          simp; omega
    · have h' : ∃ j, position (fun b => decide (t ≤ b.epoch)) l = some j ∧ j + 1 = i := by
        simpa [position, ha, Option.map_eq_some'] using h
      obtain ⟨j, hj, rfl⟩ := h'
      obtain ⟨ht, hd⟩ := ih hs.2 j hj
      have ha' : a.epoch < t := by omega
      constructor
      · rw [List.take_succ_cons, ht, List.filter_cons]
        simp [ha']
      · rw [List.drop_succ_cons, hd, List.filter_cons]
        simp [ha]

theorem filter_ge_and_ge (l : List Block) (t t' : Nat) (h : t ≤ t') :
    l.filter (fun b => decide (t' ≤ b.epoch) && decide (t ≤ b.epoch))
      = l.filter (fun b => decide (t' ≤ b.epoch)) := by
  apply List.filter_congr
  intro x _
  by_cases hx : t' ≤ x.epoch
  · have ht : t ≤ x.epoch := le_trans h hx
    simp [hx, ht]
  · simp [hx]

theorem filter_and_lt_of_all (l : List Block) (tlo thi : Nat)
    (h : ∀ x ∈ l, tlo ≤ x.epoch → x.epoch < thi) :
    l.filter (fun b => decide (b.epoch < thi) && decide (tlo ≤ b.epoch))
      = l.filter (fun b => decide (tlo ≤ b.epoch)) := by
  apply List.filter_congr
  intro x hx
  by_cases hx2 : tlo ≤ x.epoch
  · simp [hx2, h x hx hx2]
  · simp [hx2]

theorem filter_and_ge_nil (l : List Block) (t : Nat) (q : Block → Bool)
    (h : ∀ x ∈ l, ¬ t ≤ x.epoch) :
    l.filter (fun b => q b && decide (t ≤ b.epoch)) = [] := by
  rw [List.filter_eq_nil_iff]
  intro x hx
  simp [h x hx]

/-- Characterization of `split_blocks_batch_at_target` on a batch sorted
strictly ascending by epoch: part 1 is exactly the blocks below the first
threshold, a present part 2 (resp. 3) is exactly the blocks in the interval
between the corresponding thresholds, a present part 4 is exactly the
blocks at or above the last threshold, and the four parts concatenate back
to the input. -/
theorem split_blocks_batch_at_target_parts
    (blocks : List Block) (epoch : Nat) (st : SyncTarget) (p : Nat)
    (hs : epochSorted blocks) :
    (split_blocks_batch_at_target blocks epoch st p).1
      = blocks.filter (fun b => decide (b.epoch < st.superblock.checkpoint * p))
    ∧ (∀ l, (split_blocks_batch_at_target blocks epoch st p).2.1 = some l →
        l = blocks.filter (fun b => decide (b.epoch < (st.superblock.checkpoint + 1) * p)
              && decide (st.superblock.checkpoint * p ≤ b.epoch)))
    ∧ (∀ l, (split_blocks_batch_at_target blocks epoch st p).2.2.1 = some l →
        l = blocks.filter (fun b => decide (b.epoch < (st.superblock.checkpoint + 2) * p)
              && decide ((st.superblock.checkpoint + 1) * p ≤ b.epoch)))
    ∧ (∀ l, (split_blocks_batch_at_target blocks epoch st p).2.2.2.1 = some l →
        l = blocks.filter (fun b => decide ((st.superblock.checkpoint + 2) * p ≤ b.epoch)))
    ∧ (split_blocks_batch_at_target blocks epoch st p).1
        ++ optList (split_blocks_batch_at_target blocks epoch st p).2.1
        ++ optList (split_blocks_batch_at_target blocks epoch st p).2.2.1
        ++ optList (split_blocks_batch_at_target blocks epoch st p).2.2.2.1
      = blocks := by
  have h23 : st.superblock.checkpoint * p ≤ (st.superblock.checkpoint + 1) * p :=
    mul_le_mul_right' (Nat.le_succ _) p
  have h34 : (st.superblock.checkpoint + 1) * p ≤ (st.superblock.checkpoint + 2) * p :=
    mul_le_mul_right' (by omega) p
  rcases h2 : position
      (fun b : Block => decide (st.superblock.checkpoint * p ≤ b.epoch)) blocks with _ | i
  · -- no block reaches the first threshold
    have hall : ∀ x ∈ blocks, ¬ st.superblock.checkpoint * p ≤ x.epoch := by
      intro x hx
      have := position_eq_none _ _ h2 x hx
      simpa using this
    have hP1 : blocks.filter
        (fun b => decide (b.epoch < st.superblock.checkpoint * p)) = blocks := by
      rw [List.filter_eq_self]
      intro x hx
      have := hall x hx
      simp
      omega
    have hseg2 : blocks.filter (fun b => decide (b.epoch < (st.superblock.checkpoint + 1) * p)
        && decide (st.superblock.checkpoint * p ≤ b.epoch)) = [] :=
      filter_and_ge_nil _ _ _ hall
    rcases hlast : blocks.getLast? with _ | b
    · refine ⟨?_, ?_, ?_, ?_, ?_⟩
      · simp only [split_blocks_batch_at_target, h2, hlast]
        exact hP1.symm
      · simp [split_blocks_batch_at_target, h2, hlast]
      · simp [split_blocks_batch_at_target, h2, hlast]
      · simp [split_blocks_batch_at_target, h2, hlast]
      · simp [split_blocks_batch_at_target, h2, hlast, optList]
    · by_cases hb : b.epoch = st.superblock.checkpoint * p - 1
      · refine ⟨?_, ?_, ?_, ?_, ?_⟩
        · simp only [split_blocks_batch_at_target, h2, hlast, if_pos hb]
          exact hP1.symm
        · simp only [split_blocks_batch_at_target, h2, hlast, if_pos hb]
          intro l hl
          simp only [Option.some.injEq] at hl
          subst hl
          exact hseg2.symm
        · simp [split_blocks_batch_at_target, h2, hlast, if_pos hb]
        · simp [split_blocks_batch_at_target, h2, hlast, if_pos hb]
        · simp [split_blocks_batch_at_target, h2, hlast, if_pos hb, optList]
      · refine ⟨?_, ?_, ?_, ?_, ?_⟩
        · simp only [split_blocks_batch_at_target, h2, hlast, if_neg hb]
          exact hP1.symm
        · simp [split_blocks_batch_at_target, h2, hlast, if_neg hb]
        · simp [split_blocks_batch_at_target, h2, hlast, if_neg hb]
        · simp [split_blocks_batch_at_target, h2, hlast, if_neg hb]
        · simp [split_blocks_batch_at_target, h2, hlast, if_neg hb, optList]
  · -- some block reaches the first threshold
    obtain ⟨htake, hdrop⟩ := position_sorted_take_drop _ blocks hs i h2
    have sorted2 : epochSorted (blocks.drop i) :=
      List.Pairwise.sublist (List.drop_sublist _ _) hs
    have hmemD : ∀ x ∈ blocks, st.superblock.checkpoint * p ≤ x.epoch →
        x ∈ blocks.drop i := by
      intro x hx hge
      rw [hdrop]
      exact List.mem_filter.mpr ⟨hx, by simpa using hge⟩
    rcases h3 : position
        (fun b : Block => decide ((st.superblock.checkpoint + 1) * p ≤ b.epoch))
        (blocks.drop i) with _ | j
    · -- no block reaches the second threshold
      have hall3 : ∀ x ∈ blocks.drop i, ¬ (st.superblock.checkpoint + 1) * p ≤ x.epoch := by
        intro x hx
        have := position_eq_none _ _ h3 x hx
        simpa using this
      have hP2eq : blocks.filter (fun b => decide (b.epoch < (st.superblock.checkpoint + 1) * p)
          && decide (st.superblock.checkpoint * p ≤ b.epoch))
            = blocks.filter (fun b => decide (st.superblock.checkpoint * p ≤ b.epoch)) := by
        apply filter_and_lt_of_all
        intro x hx hge
        have := hall3 x (hmemD x hx hge)
        omega
      have hP2val : blocks.drop i
          = blocks.filter (fun b => decide (b.epoch < (st.superblock.checkpoint + 1) * p)
              && decide (st.superblock.checkpoint * p ≤ b.epoch)) := by
        rw [hP2eq, hdrop]
      have hseg3 : blocks.filter (fun b => decide (b.epoch < (st.superblock.checkpoint + 2) * p)
          && decide ((st.superblock.checkpoint + 1) * p ≤ b.epoch)) = [] := by
        apply filter_and_ge_nil
        intro x hx hge
        exact hall3 x (hmemD x hx (le_trans h23 hge)) hge
      rcases hlastD : (blocks.drop i).getLast? with _ | b
      · refine ⟨?_, ?_, ?_, ?_, ?_⟩
        · simp only [split_blocks_batch_at_target, h2, h3, hlastD]
          exact htake
        · simp only [split_blocks_batch_at_target, h2, h3, hlastD]
          intro l hl
          simp only [Option.some.injEq] at hl
          subst hl
          exact hP2val
        · simp [split_blocks_batch_at_target, h2, h3, hlastD]
        · simp [split_blocks_batch_at_target, h2, h3, hlastD]
        · simp only [split_blocks_batch_at_target, h2, h3, hlastD, optList]
          simp [List.take_append_drop]
      · by_cases hb : b.epoch = (st.superblock.checkpoint + 1) * p - 1
        · refine ⟨?_, ?_, ?_, ?_, ?_⟩
          · simp only [split_blocks_batch_at_target, h2, h3, hlastD, if_pos hb]
            exact htake
          · simp only [split_blocks_batch_at_target, h2, h3, hlastD, if_pos hb]
            intro l hl
            simp only [Option.some.injEq] at hl
            subst hl
            exact hP2val
          · simp only [split_blocks_batch_at_target, h2, h3, hlastD, if_pos hb]
            intro l hl
            simp only [Option.some.injEq] at hl
            subst hl
            exact hseg3.symm
          · simp [split_blocks_batch_at_target, h2, h3, hlastD, if_pos hb]
          · simp only [split_blocks_batch_at_target, h2, h3, hlastD, if_pos hb, optList]
            simp [List.take_append_drop]
        · refine ⟨?_, ?_, ?_, ?_, ?_⟩
          · simp only [split_blocks_batch_at_target, h2, h3, hlastD, if_neg hb]
            exact htake
          · simp only [split_blocks_batch_at_target, h2, h3, hlastD, if_neg hb]
            intro l hl
            simp only [Option.some.injEq] at hl
            subst hl
            exact hP2val
          · simp [split_blocks_batch_at_target, h2, h3, hlastD, if_neg hb]
          · simp [split_blocks_batch_at_target, h2, h3, hlastD, if_neg hb]
          · simp only [split_blocks_batch_at_target, h2, h3, hlastD, if_neg hb, optList]
            simp [List.take_append_drop]
    · -- some block reaches the second threshold
      obtain ⟨htake3, hdrop3⟩ := position_sorted_take_drop _ (blocks.drop i) sorted2 j h3
      have hP2val : (blocks.drop i).take j
          = blocks.filter (fun b => decide (b.epoch < (st.superblock.checkpoint + 1) * p)
              && decide (st.superblock.checkpoint * p ≤ b.epoch)) := by
        rw [htake3, hdrop, List.filter_filter]
      have hL3 : (blocks.drop i).drop j
          = blocks.filter (fun b => decide ((st.superblock.checkpoint + 1) * p ≤ b.epoch)) := by
        rw [hdrop3, hdrop, List.filter_filter, filter_ge_and_ge _ _ _ h23]
      have sorted3 : epochSorted ((blocks.drop i).drop j) :=
        List.Pairwise.sublist (List.drop_sublist _ _) sorted2
      have hmemL3 : ∀ x ∈ blocks, (st.superblock.checkpoint + 1) * p ≤ x.epoch →
          x ∈ (blocks.drop i).drop j := by
        intro x hx hge
        rw [hL3]
        exact List.mem_filter.mpr ⟨hx, by simpa using hge⟩
      rcases h4 : position
          (fun b : Block => decide ((st.superblock.checkpoint + 2) * p ≤ b.epoch))
          ((blocks.drop i).drop j) with _ | k
      · -- no block reaches the third threshold
        have hall4 : ∀ x ∈ (blocks.drop i).drop j,
            ¬ (st.superblock.checkpoint + 2) * p ≤ x.epoch := by
          intro x hx
          have := position_eq_none _ _ h4 x hx
          simpa using this
        have hP3eq : blocks.filter
            (fun b => decide (b.epoch < (st.superblock.checkpoint + 2) * p)
              && decide ((st.superblock.checkpoint + 1) * p ≤ b.epoch))
            = blocks.filter
                (fun b => decide ((st.superblock.checkpoint + 1) * p ≤ b.epoch)) := by
          apply filter_and_lt_of_all
          intro x hx hge
          have := hall4 x (hmemL3 x hx hge)
          omega
        have hP3val : (blocks.drop i).drop j
            = blocks.filter (fun b => decide (b.epoch < (st.superblock.checkpoint + 2) * p)
                && decide ((st.superblock.checkpoint + 1) * p ≤ b.epoch)) := by
          rw [hP3eq, hL3]
        have hseg4 : blocks.filter
            (fun b => decide ((st.superblock.checkpoint + 2) * p ≤ b.epoch)) = [] := by
          rw [List.filter_eq_nil_iff]
          intro x hx
          simp only [decide_eq_true_eq]
          intro hge
          exact hall4 x (hmemL3 x hx (le_trans h34 hge)) hge
        rcases hlastL3 : ((blocks.drop i).drop j).getLast? with _ | b
        · refine ⟨?_, ?_, ?_, ?_, ?_⟩
          · simp only [split_blocks_batch_at_target, h2, h3, h4, hlastL3]
            exact htake
          · simp only [split_blocks_batch_at_target, h2, h3, h4, hlastL3]
            intro l hl
            simp only [Option.some.injEq] at hl
            subst hl
            exact hP2val
          · simp only [split_blocks_batch_at_target, h2, h3, h4, hlastL3]
            intro l hl
            simp only [Option.some.injEq] at hl
            subst hl
            exact hP3val
          · simp only [split_blocks_batch_at_target, h2, h3, h4, hlastL3]
            intro l hl
            exact Option.noConfusion hl
          · simp only [split_blocks_batch_at_target, h2, h3, h4, hlastL3, optList]
            simp [List.take_append_drop]
        · by_cases hb : b.epoch = (st.superblock.checkpoint + 2) * p - 1
          · refine ⟨?_, ?_, ?_, ?_, ?_⟩
            · simp only [split_blocks_batch_at_target, h2, h3, h4, hlastL3, if_pos hb]
              exact htake
            · simp only [split_blocks_batch_at_target, h2, h3, h4, hlastL3, if_pos hb]
              intro l hl
              simp only [Option.some.injEq] at hl
              subst hl
              exact hP2val
            · simp only [split_blocks_batch_at_target, h2, h3, h4, hlastL3, if_pos hb]
              intro l hl
              simp only [Option.some.injEq] at hl
              subst hl
              exact hP3val
            · simp only [split_blocks_batch_at_target, h2, h3, h4, hlastL3, if_pos hb]
              intro l hl
              simp only [Option.some.injEq] at hl
              subst hl
              exact hseg4.symm
            · simp only [split_blocks_batch_at_target, h2, h3, h4, hlastL3, if_pos hb, optList]
              simp [List.take_append_drop]
          · refine ⟨?_, ?_, ?_, ?_, ?_⟩
            · simp only [split_blocks_batch_at_target, h2, h3, h4, hlastL3, if_neg hb]
              exact htake
            · simp only [split_blocks_batch_at_target, h2, h3, h4, hlastL3, if_neg hb]
              intro l hl
              simp only [Option.some.injEq] at hl
              subst hl
              exact hP2val
            · simp only [split_blocks_batch_at_target, h2, h3, h4, hlastL3, if_neg hb]
              intro l hl
              simp only [Option.some.injEq] at hl
              subst hl
              exact hP3val
            · simp only [split_blocks_batch_at_target, h2, h3, h4, hlastL3, if_neg hb]
              intro l hl
              exact Option.noConfusion hl
            · simp only [split_blocks_batch_at_target, h2, h3, h4, hlastL3, if_neg hb, optList]
              simp [List.take_append_drop]
      · -- some block reaches the third threshold
        obtain ⟨htake4, hdrop4⟩ :=
          position_sorted_take_drop _ ((blocks.drop i).drop j) sorted3 k h4
        have hP3val : ((blocks.drop i).drop j).take k
            = blocks.filter (fun b => decide (b.epoch < (st.superblock.checkpoint + 2) * p)
                && decide ((st.superblock.checkpoint + 1) * p ≤ b.epoch)) := by
          rw [htake4, hL3, List.filter_filter]
        have hP4val : ((blocks.drop i).drop j).drop k
            = blocks.filter
                (fun b => decide ((st.superblock.checkpoint + 2) * p ≤ b.epoch)) := by
          rw [hdrop4, hL3, List.filter_filter, filter_ge_and_ge _ _ _ h34]
        refine ⟨?_, ?_, ?_, ?_, ?_⟩
        · simp only [split_blocks_batch_at_target, h2, h3, h4]
          exact htake
        · simp only [split_blocks_batch_at_target, h2, h3, h4]
          intro l hl
          simp only [Option.some.injEq] at hl
          subst hl
          exact hP2val
        · simp only [split_blocks_batch_at_target, h2, h3, h4]
          intro l hl
          simp only [Option.some.injEq] at hl
          subst hl
          exact hP3val
        · simp only [split_blocks_batch_at_target, h2, h3, h4]
          intro l hl
          simp only [Option.some.injEq] at hl
          subst hl
          exact hP4val
        · simp only [split_blocks_batch_at_target, h2, h3, h4, optList]
          simp [List.take_append_drop]

/-- C1: for every input list of blocks sorted strictly ascending by epoch,
every current epoch, every sync target and every superblock period `p ≥ 1`,
`split_blocks_batch_at_target` returns parts whose concatenation (treating
a `none` part as empty) equals the input list, part 1 contains exactly the
blocks with epoch below `SB*.checkpoint · p`, every block of part 2 has
epoch in `[SB*.checkpoint · p, (SB*.checkpoint + 1) · p)`, every block of
part 3 has epoch in `[(SB*.checkpoint + 1) · p, (SB*.checkpoint + 2) · p)`,
and every block of part 4 has epoch `≥ (SB*.checkpoint + 2) · p`. -/
theorem claim_c1_split_blocks_batch_coverage
    (blocks : List Block) (epoch : Nat) (st : SyncTarget) (p : Nat)
    (hp : 1 ≤ p) (hs : epochSorted blocks) :
    (split_blocks_batch_at_target blocks epoch st p).1
        ++ optList (split_blocks_batch_at_target blocks epoch st p).2.1
        ++ optList (split_blocks_batch_at_target blocks epoch st p).2.2.1
        ++ optList (split_blocks_batch_at_target blocks epoch st p).2.2.2.1
      = blocks
    ∧ (split_blocks_batch_at_target blocks epoch st p).1
        = blocks.filter (fun b => decide (b.epoch < st.superblock.checkpoint * p))
    ∧ (∀ b ∈ optList (split_blocks_batch_at_target blocks epoch st p).2.1,
        st.superblock.checkpoint * p ≤ b.epoch
          ∧ b.epoch < (st.superblock.checkpoint + 1) * p)
    ∧ (∀ b ∈ optList (split_blocks_batch_at_target blocks epoch st p).2.2.1,
        (st.superblock.checkpoint + 1) * p ≤ b.epoch
          ∧ b.epoch < (st.superblock.checkpoint + 2) * p)
    ∧ (∀ b ∈ optList (split_blocks_batch_at_target blocks epoch st p).2.2.2.1,
        (st.superblock.checkpoint + 2) * p ≤ b.epoch) := by
  obtain ⟨hP1, hP2, hP3, hP4, hcat⟩ :=
    split_blocks_batch_at_target_parts blocks epoch st p hs
  refine ⟨hcat, hP1, ?_, ?_, ?_⟩
  · intro b hb
    rcases ho : (split_blocks_batch_at_target blocks epoch st p).2.1 with _ | l
    · rw [ho] at hb
      cases hb
    · rw [ho, hP2 l ho] at hb
      have hb' := (List.mem_filter.mp hb).2
      simp only [Bool.and_eq_true, decide_eq_true_eq] at hb'
      exact ⟨hb'.2, hb'.1⟩
  · intro b hb
    rcases ho : (split_blocks_batch_at_target blocks epoch st p).2.2.1 with _ | l
    · rw [ho] at hb
      cases hb
    · rw [ho, hP3 l ho] at hb
      have hb' := (List.mem_filter.mp hb).2
      simp only [Bool.and_eq_true, decide_eq_true_eq] at hb'
      exact ⟨hb'.2, hb'.1⟩
  · intro b hb
    rcases ho : (split_blocks_batch_at_target blocks epoch st p).2.2.2.1 with _ | l
    · rw [ho] at hb
      cases hb
    · rw [ho, hP4 l ho] at hb
      have hb' := (List.mem_filter.mp hb).2
      simpa using hb'

/-- The spec's seed scenario 4: blocks at epochs 0, 9, 10, 19, 20, 21. -/
def scenario4Blocks : List Block :=
  [mkBlock 0 0, mkBlock 9 1, mkBlock 10 2, mkBlock 19 3, mkBlock 20 4, mkBlock 21 5]

/-- The spec's seed scenario 4 sync target: superblock checkpoint 1. -/
def scenario4Target : SyncTarget :=
  { block := ⟨0, 0⟩, superblock := ⟨1, 0⟩ }

/-- Witness for C1 at the spec's seed scenario 4 (target superblock
checkpoint 1, period 10, block epochs 0, 9, 10, 19, 20, 21). -/
theorem claim_c1_split_blocks_batch_coverage_witness :
    (1 ≤ 10 ∧ epochSorted scenario4Blocks)
    ∧ (split_blocks_batch_at_target scenario4Blocks 5 scenario4Target 10).1
        ++ optList (split_blocks_batch_at_target scenario4Blocks 5 scenario4Target 10).2.1
        ++ optList (split_blocks_batch_at_target scenario4Blocks 5 scenario4Target 10).2.2.1
        ++ optList (split_blocks_batch_at_target scenario4Blocks 5 scenario4Target 10).2.2.2.1
      = scenario4Blocks :=
  ⟨⟨by decide, by decide⟩,
    (claim_c1_split_blocks_batch_coverage scenario4Blocks 5 scenario4Target 10
      (by decide) (by decide)).1⟩

/-- C7 counterexample: at the spec's own seed scenario 4 (target superblock
checkpoint 1, period 10, block epochs 0, 9, 10, 19, 20, 21), the part
preceding the threshold `t = (SB* + 1) · p = 20` is `some [10, 19]`, whose
last block has epoch `19 = t - 1`, yet the part starting at `t` is
`some [20, 21]` and not `some []`. -/
theorem claim_c7_counterexample :
    (split_blocks_batch_at_target scenario4Blocks 5 scenario4Target 10).2.1
      = some [mkBlock 10 2, mkBlock 19 3]
    ∧ (mkBlock 19 3).epoch = (scenario4Target.superblock.checkpoint + 1) * 10 - 1
    ∧ (split_blocks_batch_at_target scenario4Blocks 5 scenario4Target 10).2.2.1
        = some [mkBlock 20 4, mkBlock 21 5]
    ∧ (split_blocks_batch_at_target scenario4Blocks 5 scenario4Target 10).2.2.1
        ≠ some ([] : List Block) := by
  refine ⟨by decide, by decide, by decide, by decide⟩

/-- C7 (amended): for every input to `split_blocks_batch_at_target` (blocks
sorted strictly ascending by epoch, superblock period ≥ 1) and every
threshold `t` among `SB*·p`, `(SB*+1)·p`, `(SB*+2)·p`: if the part
preceding `t` is non-empty and its last block has epoch `t - 1`, then the
part starting at `t` is `some` (possibly non-empty) rather than `none`. -/
theorem claim_c7_split_edge_not_none
    (blocks : List Block) (epoch : Nat) (st : SyncTarget) (p : Nat)
    (hp : 1 ≤ p) (hs : epochSorted blocks) :
    (∀ b, (split_blocks_batch_at_target blocks epoch st p).1.getLast? = some b →
        b.epoch + 1 = st.superblock.checkpoint * p →
        (split_blocks_batch_at_target blocks epoch st p).2.1 ≠ none)
    ∧ (∀ l2 b, (split_blocks_batch_at_target blocks epoch st p).2.1 = some l2 →
        l2.getLast? = some b →
        b.epoch + 1 = (st.superblock.checkpoint + 1) * p →
        (split_blocks_batch_at_target blocks epoch st p).2.2.1 ≠ none)
    ∧ (∀ l3 b, (split_blocks_batch_at_target blocks epoch st p).2.2.1 = some l3 →
        l3.getLast? = some b →
        b.epoch + 1 = (st.superblock.checkpoint + 2) * p →
        (split_blocks_batch_at_target blocks epoch st p).2.2.2.1 ≠ none) := by
  refine ⟨?_, ?_, ?_⟩
  · intro b hlastb hb
    rcases h2 : position
        (fun bb : Block => decide (st.superblock.checkpoint * p ≤ bb.epoch)) blocks with _ | i
    · simp only [split_blocks_batch_at_target, h2] at hlastb ⊢
      simp only [hlastb]
      rw [if_pos (by omega)]
      simp
    · rcases h3 : position
          (fun bb : Block => decide ((st.superblock.checkpoint + 1) * p ≤ bb.epoch))
          (blocks.drop i) with _ | j
      · simp only [split_blocks_batch_at_target, h2, h3]
        simp
      · simp only [split_blocks_batch_at_target, h2, h3]
        simp
  · intro l2 b hP2 hlast2 hb
    rcases h2 : position
        (fun bb : Block => decide (st.superblock.checkpoint * p ≤ bb.epoch)) blocks with _ | i
    · rcases hlast : blocks.getLast? with _ | b'
      · simp only [split_blocks_batch_at_target, h2, hlast] at hP2
        exact Option.noConfusion hP2
      · by_cases hb' : b'.epoch = st.superblock.checkpoint * p - 1
        · simp only [split_blocks_batch_at_target, h2, hlast, if_pos hb'] at hP2
          simp only [Option.some.injEq] at hP2
          subst hP2
          simp at hlast2
        · simp only [split_blocks_batch_at_target, h2, hlast, if_neg hb'] at hP2
          exact Option.noConfusion hP2
    · rcases h3 : position
          (fun bb : Block => decide ((st.superblock.checkpoint + 1) * p ≤ bb.epoch))
          (blocks.drop i) with _ | j
      · simp only [split_blocks_batch_at_target, h2, h3] at hP2 ⊢
        simp only [Option.some.injEq] at hP2
        subst hP2
        simp only [hlast2]
        rw [if_pos (by omega)]
        simp
      · rcases h4 : position
            (fun bb : Block => decide ((st.superblock.checkpoint + 2) * p ≤ bb.epoch))
            ((blocks.drop i).drop j) with _ | k
        · simp only [split_blocks_batch_at_target, h2, h3, h4]
          simp
        · simp only [split_blocks_batch_at_target, h2, h3, h4]
          simp
  · intro l3 b hP3 hlast3 hb
    rcases h2 : position
        (fun bb : Block => decide (st.superblock.checkpoint * p ≤ bb.epoch)) blocks with _ | i
    · rcases hlast : blocks.getLast? with _ | b'
      · simp only [split_blocks_batch_at_target, h2, hlast] at hP3
        exact Option.noConfusion hP3
      · by_cases hb' : b'.epoch = st.superblock.checkpoint * p - 1
        · simp only [split_blocks_batch_at_target, h2, hlast, if_pos hb',
            List.getLast?_nil] at hP3
          exact Option.noConfusion hP3
        · simp only [split_blocks_batch_at_target, h2, hlast, if_neg hb'] at hP3
          exact Option.noConfusion hP3
    · rcases h3 : position
          (fun bb : Block => decide ((st.superblock.checkpoint + 1) * p ≤ bb.epoch))
          (blocks.drop i) with _ | j
      · rcases hlastD : (blocks.drop i).getLast? with _ | b'
        · simp only [split_blocks_batch_at_target, h2, h3, hlastD] at hP3
          exact Option.noConfusion hP3
        · by_cases hb' : b'.epoch = (st.superblock.checkpoint + 1) * p - 1
          · simp only [split_blocks_batch_at_target, h2, h3, hlastD, if_pos hb'] at hP3
            simp only [Option.some.injEq] at hP3
            subst hP3
            simp at hlast3
          · simp only [split_blocks_batch_at_target, h2, h3, hlastD, if_neg hb'] at hP3
            exact Option.noConfusion hP3
      · rcases h4 : position
            (fun bb : Block => decide ((st.superblock.checkpoint + 2) * p ≤ bb.epoch))
            ((blocks.drop i).drop j) with _ | k
        · simp only [split_blocks_batch_at_target, h2, h3, h4] at hP3 ⊢
          simp only [Option.some.injEq] at hP3
          subst hP3
          simp only [hlast3]
          rw [if_pos (by omega)]
          simp
        · simp only [split_blocks_batch_at_target, h2, h3, h4]
          simp

/-- Witness for the amended C7: blocks at epochs 9, 19, 29 with target
superblock checkpoint 1, period 10, make all three edge conditions fire. -/
theorem claim_c7_split_edge_not_none_witness :
    (1 ≤ 10 ∧ epochSorted [mkBlock 9 0, mkBlock 19 1, mkBlock 29 2])
    ∧ (split_blocks_batch_at_target [mkBlock 9 0, mkBlock 19 1, mkBlock 29 2] 5
        scenario4Target 10).2.1 ≠ none
    ∧ (split_blocks_batch_at_target [mkBlock 9 0, mkBlock 19 1, mkBlock 29 2] 5
        scenario4Target 10).2.2.1 ≠ none
    ∧ (split_blocks_batch_at_target [mkBlock 9 0, mkBlock 19 1, mkBlock 29 2] 5
        scenario4Target 10).2.2.2.1 ≠ none :=
  ⟨⟨by decide, by decide⟩,
    (claim_c7_split_edge_not_none [mkBlock 9 0, mkBlock 19 1, mkBlock 29 2] 5
        scenario4Target 10 (by decide) (by decide)).1
      (mkBlock 9 0) (by decide) (by decide),
    (claim_c7_split_edge_not_none [mkBlock 9 0, mkBlock 19 1, mkBlock 29 2] 5
        scenario4Target 10 (by decide) (by decide)).2.1
      [mkBlock 19 1] (mkBlock 19 1) (by decide) (by decide) (by decide),
    (claim_c7_split_edge_not_none [mkBlock 9 0, mkBlock 19 1, mkBlock 29 2] 5
        scenario4Target 10 (by decide) (by decide)).2.2
      [mkBlock 29 2] (mkBlock 29 2) (by decide) (by decide) (by decide)⟩

/-- The number of occurrences of a vote in a list of votes. -/
def voteCount [DecidableEq α] (votes : List α) (v : α) : Nat :=
  votes.countP (fun w => decide (w = v))

/-- Modelled from the spec: `mode_consensus` (defined in `crate::utils`,
whose source is not part of the extracted tree).  Returns the most common
element of `votes` provided it is the unique most common one and it is
supported by at least `⌈total · threshold / 100⌉` votes, the ceiling being
computed as `(total · threshold + 99) / 100` per the spec; a tie between
equally most common elements yields `none` (the handler source's case-3
comment: a tie makes the threshold-0 mode return nothing). -/
def mode_consensus [DecidableEq α] (votes : List α) (threshold : Nat) : Option α :=
  match votes.dedup.filter
      (fun v => votes.dedup.all (fun w => decide (voteCount votes w ≤ voteCount votes v))) with
  | [v] =>
    if (votes.length * threshold + 99) / 100 ≤ voteCount votes v then some v else none
  | _ => none

theorem mode_consensus_some_count [DecidableEq α] (votes : List α) (t : Nat) (v : α)
    (h : mode_consensus votes t = some v) :
    (votes.length * t + 99) / 100 ≤ voteCount votes v := by
  unfold mode_consensus at h
  rcases hf : votes.dedup.filter
      (fun v => votes.dedup.all (fun w => decide (voteCount votes w ≤ voteCount votes v)))
    with _ | ⟨v', rest⟩
  · rw [hf] at h
    exact Option.noConfusion h
  · rcases rest with _ | ⟨v'', rest⟩
    · rw [hf] at h
      have h' : (if (votes.length * t + 99) / 100 ≤ voteCount votes v' then some v'
          else none) = some v := h
      by_cases hc : (votes.length * t + 99) / 100 ≤ voteCount votes v'
      · rw [if_pos hc] at h'
        injection h' with h'
        subst h'
        exact hc
      · rw [if_neg hc] at h'
        exact Option.noConfusion h'
    · rw [hf] at h
      exact Option.noConfusion h

/-- A peers-beacons snapshot: each (outbound) peer address paired with the
last beacon it reported (or `none`), plus the configured outbound limit. -/
structure PeersBeacons where
  pb : List (Nat × Option LastBeacon)
  outbound_limit : Option Nat
deriving DecidableEq, Repr

/-- Embedding of `PeersBeacons::superblock_consensus`.  The mode over the
reported superblock beacons, missing peers (`outbound_limit − |pb|`)
counted as `none` votes; on consensus, the block consensus is taken among
the peers that voted for the winning superblock beacon, with
`is_block_majority` true iff that block mode also meets the threshold.
Behaviour is specified only for `|pb| ≤ outbound_limit` (the source
asserts this), and `block_beacons[0]` (reachable only when non-empty, as a
`some` superblock winner entails a reporting peer) is modelled with a
default head. -/
def PeersBeacons.superblock_consensus (self : PeersBeacons)
    (consensus_threshold : Nat) : Option (LastBeacon × Bool) :=
  let num_missing_peers :=
    match self.outbound_limit with
    | some outbound_limit => outbound_limit - self.pb.length
    | none => 0
  ((mode_consensus
      (self.pb.map (fun q => q.2.map (fun last_beacon =>
          last_beacon.highest_superblock_checkpoint))
        ++ List.replicate num_missing_peers none)
      consensus_threshold).bind id).map
    (fun superblock_consensus =>
      let block_beacons := self.pb.filterMap (fun q =>
        q.2.bind (fun last_beacon =>
          if last_beacon.highest_superblock_checkpoint = superblock_consensus then
            some last_beacon.highest_block_checkpoint
          else
            none))
      let block_consensus_mode := mode_consensus block_beacons consensus_threshold
      match block_consensus_mode with
      | some x =>
        ({ highest_block_checkpoint := x,
           highest_superblock_checkpoint := superblock_consensus }, true)
      | none =>
        ({ highest_block_checkpoint :=
             (mode_consensus block_beacons 0).getD (block_beacons.headD default),
           highest_superblock_checkpoint := superblock_consensus }, false))

/-- Embedding of `PeersBeacons::decide_peers_to_unregister`: the peers
whose reported block beacon differs from `beacon`, peers that reported no
beacon included. -/
def PeersBeacons.decide_peers_to_unregister (self : PeersBeacons)
    (beacon : CheckpointBeacon) : List Nat :=
  self.pb.filterMap (fun q =>
    if (q.2.map (fun last_beacon =>
          decide (last_beacon.highest_block_checkpoint ≠ beacon))).getD true then
      some q.1
    else
      none)

/-- Embedding of `PeersBeacons::decide_peers_to_unregister_s`: same as
`decide_peers_to_unregister` but comparing superblock beacons. -/
def PeersBeacons.decide_peers_to_unregister_s (self : PeersBeacons)
    (superbeacon : CheckpointBeacon) : List Nat :=
  self.pb.filterMap (fun q =>
    if (q.2.map (fun last_beacon =>
          decide (last_beacon.highest_superblock_checkpoint ≠ superbeacon))).getD true then
      some q.1
    else
      none)

/-- Embedding of `PeersBeacons::peers_with_no_beacon`. -/
def PeersBeacons.peers_with_no_beacon (self : PeersBeacons) : List Nat :=
  self.pb.filterMap (fun q => if q.2.isNone then some q.1 else none)

/-- C6: for every peers-beacons snapshot with outbound limit `n` and
threshold `τ`, if the number of reported peers is strictly below
`⌈n·τ/100⌉ = (n·τ + 99) / 100`, then `superblock_consensus` returns `none`
no matter how the reported beacons agree (missing peers count as `none`
votes). -/
theorem claim_c6_superblock_consensus_below_threshold
    (pb : PeersBeacons) (n τ : Nat)
    (hout : pb.outbound_limit = some n) (hle : pb.pb.length ≤ n)
    (hlt : pb.pb.length < (n * τ + 99) / 100) :
    pb.superblock_consensus τ = none := by
  have hvotes_len : (pb.pb.map (fun q => q.2.map (fun last_beacon =>
      last_beacon.highest_superblock_checkpoint))
        ++ List.replicate (n - pb.pb.length) (none : Option CheckpointBeacon)).length = n := by
    simp
    omega
  have hcount : ∀ b : CheckpointBeacon,
      voteCount
        (pb.pb.map (fun q => q.2.map (fun last_beacon =>
            last_beacon.highest_superblock_checkpoint))
          ++ List.replicate (n - pb.pb.length) (none : Option CheckpointBeacon)) (some b)
        ≤ pb.pb.length := by
    intro b
    rw [voteCount, List.countP_append]
    have h1 := List.countP_le_length (fun w => decide (w = some b))
      (l := pb.pb.map (fun q => q.2.map (fun last_beacon =>
        last_beacon.highest_superblock_checkpoint)))
    have h2 : (List.replicate (n - pb.pb.length)
        (none : Option CheckpointBeacon)).countP (fun w => decide (w = some b)) = 0 := by
      rw [List.countP_eq_zero]
      intro a ha
      rw [List.eq_of_mem_replicate ha]
      simp
    rw [h2]
    simpa using h1
  simp only [PeersBeacons.superblock_consensus, hout]
  rcases hm : mode_consensus
      (pb.pb.map (fun q => q.2.map (fun last_beacon =>
          last_beacon.highest_superblock_checkpoint))
        ++ List.replicate (n - pb.pb.length) (none : Option CheckpointBeacon)) τ with _ | v
  · simp [hm]
  · rcases v with _ | b
    · simp [hm]
    · exfalso
      have hc := mode_consensus_some_count _ τ _ hm
      have hcb := hcount b
      rw [hvotes_len] at hc
      omega

/-- Witness for C6: one reporting peer out of an outbound limit of 4 with
τ = 60 (the spec's seed scenario 1 shape): 1 < ⌈4·60/100⌉ = 3, so there is
no consensus. -/
theorem claim_c6_superblock_consensus_below_threshold_witness :
    ((PeersBeacons.mk [(0, some ⟨⟨1, 1⟩, ⟨2, 2⟩⟩)] (some 4)).outbound_limit = some 4
      ∧ (PeersBeacons.mk [(0, some ⟨⟨1, 1⟩, ⟨2, 2⟩⟩)] (some 4)).pb.length ≤ 4
      ∧ (PeersBeacons.mk [(0, some ⟨⟨1, 1⟩, ⟨2, 2⟩⟩)] (some 4)).pb.length < (4 * 60 + 99) / 100)
    ∧ (PeersBeacons.mk [(0, some ⟨⟨1, 1⟩, ⟨2, 2⟩⟩)] (some 4)).superblock_consensus 60 = none :=
  ⟨⟨by decide, by decide, by decide⟩,
    claim_c6_superblock_consensus_below_threshold _ 4 60 (by decide) (by decide) (by decide)⟩

/-- Messages the chain manager sends to other actors, recorded as effects. -/
inductive Effect
  | SetLastBeacon (b : LastBeacon)
  | BroadcastLastBeacon (b : LastBeacon) (only_inbound : Bool)
  | RequestBlocksBatch
  | AddTempSuperblockVotes
  | TryMineDataRequest
deriving DecidableEq, Repr

/-- Operations of the chain manager whose implementations live outside the
extracted handler source (`chain_manager/mod.rs`, the storage manager and
the transaction factory), modelled over an abstract chain state `σ`,
together with the consensus constants the handlers read.  Every theorem
about a handler is parametric in these collaborators. -/
structure ChainOps (σ : Type) where
  /-- The chain state as restored by `initialize_from_storage`. -/
  storage_snapshot : σ
  /-- `ChainManager::get_chain_beacon` (the highest block checkpoint). -/
  get_chain_beacon : σ → CheckpointBeacon
  /-- `ChainManager::get_superblock_beacon`. -/
  get_superblock_beacon : σ → CheckpointBeacon
  /-- The beacon of `chain_state.superblock_state`. -/
  superblock_state_beacon : σ → CheckpointBeacon
  /-- Whether `chain_state.chain_info` is present. -/
  chain_info_present : σ → Bool
  /-- Whether `chain_state.reputation_engine` is present. -/
  reputation_engine_present : σ → Bool
  /-- `ChainManager::process_requested_block`: success flag and new state. -/
  process_requested_block : σ → Block → Bool × σ
  /-- `ChainManager::process_blocks_batch`: success flag, number of
  processed blocks, and new state. -/
  process_blocks_batch : σ → SyncTarget → List Block → Bool × Nat × σ
  /-- `ReputationEngine::ars_mut().update_empty` up to a given epoch. -/
  update_ars_empty : σ → Nat → σ
  /-- `ChainManager::persist_blocks_batch`. -/
  persist_blocks_batch : σ → List Block → σ
  /-- Persisting the finished data requests. -/
  persist_data_requests : σ → σ
  /-- `ChainManager::construct_superblock` at a given epoch: the hash of
  the constructed superblock and the new state. -/
  construct_superblock : σ → Nat → Nat × σ
  /-- On superblock consensus during sync: set
  `chain_info.highest_superblock_checkpoint` to the superblock-state
  beacon and persist the chain state. -/
  consolidate_superblock : σ → σ
  /-- `ChainManager::consolidate_block` of the best candidate. -/
  consolidate_block : σ → Block → σ
  /-- `ReputationEngine::ars_mut().update` with no blocks for an epoch. -/
  update_ars_with_no_blocks : σ → Nat → σ
  /-- `ChainManager::add_temp_superblock_votes`. -/
  add_temp_superblock_votes : σ → σ
  /-- `TransactionsPool::clear_pending_transactions`. -/
  clear_pending_transactions : σ → σ
  /-- `TransactionsPool::clear_commits`. -/
  clear_commits : σ → σ
  /-- `transaction_factory::build_vtt` plus signing: the transaction hash
  and new state, or a factory error. -/
  build_vtt : σ → Option (Nat × σ)
  /-- `validate_rad_request` on the incoming data-request output. -/
  validate_rad_request : Bool
  /-- `transaction_factory::build_drt` plus signing. -/
  build_drt : σ → Option (Nat × σ)
  /-- `transaction_factory::get_total_balance`. -/
  get_total_balance : σ → Nat → Nat
  /-- `consensus_constants.genesis_hash`. -/
  genesis_hash : Nat
  /-- `consensus_constants.bootstrap_hash`. -/
  bootstrap_hash : Nat
  /-- `consensus_constants.superblock_period`. -/
  superblock_period : Nat

/-- The chain-manager actor state, as read and written by the handlers. -/
structure CMState (σ : Type) where
  sm_state : StateMachine
  current_epoch : Option Nat
  peers_beacons_received : Bool
  sync_target : Option SyncTarget
  sync_waiting_for_add_blocks_since : Option Nat
  /-- The candidate map, as hash-block pairs. -/
  candidates : List (Nat × Block)
  seen_candidates : List Nat
  best_candidate : Option Block
  /-- `self.consensus_c` (the consensus threshold percentage). -/
  consensus_c : Nat
  epoch_constants_present : Bool
  vrf_ctx_present : Bool
  secp_present : Bool
  mining_enabled : Bool
  chain_state : σ
  last_chain_state : σ

/-- Embedding of `Handler<EpochNotification<EveryEpochPayload>>` for the
chain manager (the per-epoch tick).  Logging is dropped; messages to the
sessions manager become effects. -/
def handle_epoch_notification (ops : ChainOps σ) (s : CMState σ) (checkpoint : Nat) :
    CMState σ × List Effect :=
  let last_checked_epoch := s.current_epoch
  let s := { s with current_epoch := some checkpoint }
  -- Clear pending transactions HashSet
  let s := { s with chain_state := ops.clear_pending_transactions s.chain_state }
  -- Handle case consensus not achieved
  let s :=
    if !s.peers_beacons_received then
      { s with
          sm_state := StateMachine.WaitingConsensus
          candidates := []
          seen_candidates := [] }
    else s
  let s :=
    match last_checked_epoch with
    | some last_checked_epoch =>
      if checkpoint - last_checked_epoch ≠ 1 then
        { s with sm_state := StateMachine.WaitingConsensus }
      else s
    | none => s
  let s := { s with peers_beacons_received := false }
  let (s, effects) :=
    match s.sm_state with
    | StateMachine.WaitingConsensus =>
      if ops.chain_info_present s.chain_state then
        -- Send last beacon because otherwise the network cannot bootstrap
        let last_beacon : LastBeacon :=
          { highest_block_checkpoint := ops.get_chain_beacon s.chain_state,
            highest_superblock_checkpoint := ops.get_superblock_beacon s.chain_state }
        (s, [Effect.SetLastBeacon last_beacon,
             Effect.BroadcastLastBeacon last_beacon true])
      else (s, [])
    | StateMachine.Synchronizing => (s, [])
    | StateMachine.AlmostSynced | StateMachine.Synced =>
      if ops.reputation_engine_present s.chain_state then
        if !s.epoch_constants_present || !s.vrf_ctx_present || !s.secp_present then
          -- ChainNotReady: log the error and abort the tick
          (s, [])
        else
          -- Consolidate the best candidate, or update the ARS for an
          -- epoch without blocks
          let s :=
            match s.best_candidate with
            | some block =>
              { s with
                  best_candidate := none
                  chain_state := ops.consolidate_block s.chain_state block }
            | none =>
              if checkpoint > 0 then
                { s with
                    best_candidate := none
                    chain_state := ops.update_ars_with_no_blocks s.chain_state
                      (checkpoint - 1) }
              else { s with best_candidate := none }
          -- Send last beacon on block consolidation
          let last_beacon : LastBeacon :=
            { highest_block_checkpoint := ops.get_chain_beacon s.chain_state,
              highest_superblock_checkpoint := ops.get_superblock_beacon s.chain_state }
          let effects := [Effect.SetLastBeacon last_beacon,
                          Effect.BroadcastLastBeacon last_beacon true]
          -- Remove commits because they expire every epoch
          let s := { s with chain_state := ops.clear_commits s.chain_state }
          let effects :=
            if s.mining_enabled then effects ++ [Effect.TryMineDataRequest] else effects
          -- Clear candidates
          let s := { s with candidates := [], seen_candidates := [] }
          (s, effects)
      else (s, [])
  let s := { s with peers_beacons_received := false }
  (s, effects)

/-- The third processing stage of the synchronizing `AddBlocks` path:
process the part-3 blocks; return to WaitingConsensus whether or not they
validate. -/
def add_blocks_process_part3 (ops : ChainOps σ) (s : CMState σ)
    (sync_target : SyncTarget) (blocks3 : List Block) : CMState σ :=
  let (batch_succeeded, _num_processed_blocks, cs) :=
    ops.process_blocks_batch s.chain_state sync_target blocks3
  let s := { s with chain_state := cs }
  if !batch_succeeded then
    { s with sm_state := StateMachine.WaitingConsensus }
  else
    -- Target achieved, go back to state 1
    { s with sm_state := StateMachine.WaitingConsensus }

/-- The second processing stage of the synchronizing `AddBlocks` path:
process the part-2 blocks and, when a second superblock index exists,
persist them and construct superblock target+1; then stage 3. -/
def add_blocks_process_part2 (ops : ChainOps σ) (s : CMState σ)
    (sync_target : SyncTarget) (epoch_of_the_last_block : Option Nat)
    (blocks2 blocks3 : List Block) (epoch2 : Option Nat)
    (superblock_period : Nat) : CMState σ :=
  let (batch_succeeded, num_processed_blocks, cs) :=
    ops.process_blocks_batch s.chain_state sync_target blocks2
  let s := { s with chain_state := cs }
  if !batch_succeeded then
    { s with sm_state := StateMachine.WaitingConsensus }
  else
    let epoch_of_the_last_block :=
      if num_processed_blocks = 0 then epoch_of_the_last_block
      else (blocks2.get? (num_processed_blocks - 1)).map
        (fun b => b.block_header.beacon.checkpoint)
    match epoch2 with
    | some second_superblock_index =>
      let epoch_second := second_superblock_index * superblock_period
      -- Update ARS if there were no blocks right before the epoch during
      -- which we should construct the second superblock
      let s :=
        match epoch_of_the_last_block with
        | some e =>
          if epoch_second ≠ e + 1 then
            { s with chain_state := ops.update_ars_empty s.chain_state epoch_second }
          else s
        | none =>
          { s with chain_state := ops.update_ars_empty s.chain_state epoch_second }
      let s := { s with chain_state := ops.persist_blocks_batch s.chain_state blocks2 }
      let s := { s with chain_state := ops.persist_data_requests s.chain_state }
      -- Target achieved, go back to state 1
      let s := { s with sm_state := StateMachine.WaitingConsensus }
      -- Construct the second superblock; its value is ignored
      let (_superblock_hash, cs) := ops.construct_superblock s.chain_state epoch_second
      let s := { s with chain_state := cs }
      add_blocks_process_part3 ops s sync_target blocks3
    | none =>
      add_blocks_process_part3 ops s sync_target blocks3

/-- Embedding of `Handler<AddBlocks>` for the chain manager.  The nested
async stages of the source run to completion under `.wait(ctx)` and are
modelled sequentially; messages to other actors become effects, and
`initialize_from_storage` becomes assigning `ops.storage_snapshot`. -/
def handle_add_blocks (ops : ChainOps σ) (s : CMState σ) (blocks : List Block) :
    CMState σ × List Effect :=
  match s.sm_state with
  | StateMachine.WaitingConsensus =>
    -- In WaitingConsensus state, only allow AddBlocks when the argument
    -- is the genesis block
    match blocks with
    | [block] =>
      if block.hash = ops.genesis_hash then
        let (ok, cs) := ops.process_requested_block s.chain_state block
        let s := { s with chain_state := cs }
        if ok then
          -- Set last beacon because otherwise the network cannot bootstrap
          let last_beacon : LastBeacon :=
            { highest_block_checkpoint := ops.get_chain_beacon s.chain_state,
              highest_superblock_checkpoint := ops.get_superblock_beacon s.chain_state }
          ({ s with sync_waiting_for_add_blocks_since := none },
            [Effect.SetLastBeacon last_beacon])
        else
          ({ s with sync_waiting_for_add_blocks_since := none }, [])
      else ({ s with sync_waiting_for_add_blocks_since := none }, [])
    | _ => ({ s with sync_waiting_for_add_blocks_since := none }, [])
  | StateMachine.Synchronizing =>
    match s.sync_target with
    | none =>
      -- "Target Beacon is None": return early, still Synchronizing
      (s, [])
    | some sync_target =>
      if blocks = [] then
        -- Empty batch: back to WaitingConsensus, restore from storage
        ({ s with
            sm_state := StateMachine.WaitingConsensus
            chain_state := ops.storage_snapshot
            sync_waiting_for_add_blocks_since := none }, [])
      else
        let superblock_period := ops.superblock_period
        -- Hack in the source: remove the first block
        let blocks := blocks.tail
        let (blocks1, blocks2, blocks3, _blocks4, epoch2) :=
          split_blocks_batch_at_target blocks (s.current_epoch.getD 0) sync_target
            superblock_period
        let (batch_succeeded, num_processed_blocks, cs) :=
          ops.process_blocks_batch s.chain_state sync_target blocks1
        let s := { s with chain_state := cs }
        if !batch_succeeded then
          -- Invalid blocks batch: back to WaitingConsensus (no restore here)
          ({ s with
              sm_state := StateMachine.WaitingConsensus
              sync_waiting_for_add_blocks_since := none }, [])
        else
          match blocks2 with
          | none =>
            -- Target not reached, request next blocks batch
            (s, [Effect.RequestBlocksBatch])
          | some blocks2 =>
            let epoch_of_the_last_block :=
              if num_processed_blocks = 0 then none
              else (blocks1.get? (num_processed_blocks - 1)).map
                (fun b => b.block_header.beacon.checkpoint)
            let blocks3 := blocks3.getD []
            let current_superblock_checkpoint :=
              (ops.superblock_state_beacon s.chain_state).checkpoint
            let need_to_construct_superblock :=
              sync_target.superblock.checkpoint ≠ current_superblock_checkpoint
            let epoch_during_which_we_should_construct_the_target_superblock :=
              sync_target.superblock.checkpoint * superblock_period
            if need_to_construct_superblock then
              -- Update ARS if there were no blocks right before the epoch
              -- during which we should construct the target superblock
              let s :=
                match epoch_of_the_last_block with
                | some e =>
                  if epoch_during_which_we_should_construct_the_target_superblock
                      ≠ e + 1 then
                    { s with chain_state := (ops.update_ars_empty s.chain_state
                        epoch_during_which_we_should_construct_the_target_superblock) }
                  else s
                | none =>
                  { s with chain_state := (ops.update_ars_empty s.chain_state
                      epoch_during_which_we_should_construct_the_target_superblock) }
              let s := { s with chain_state :=
                ops.persist_data_requests (ops.persist_blocks_batch s.chain_state blocks1) }
              let (superblock_hash, cs) := ops.construct_superblock s.chain_state
                epoch_during_which_we_should_construct_the_target_superblock
              let s := { s with chain_state := cs }
              if superblock_hash = sync_target.superblock.hash_prev_block then
                -- Consensus while sync: consolidate and persist the state
                let s := { s with chain_state := ops.consolidate_superblock s.chain_state }
                let s := { s with last_chain_state := s.chain_state }
                let s := add_blocks_process_part2 ops s sync_target epoch_of_the_last_block
                  blocks2 blocks3 epoch2 superblock_period
                ({ s with sync_waiting_for_add_blocks_since :=
                    if s.sm_state ≠ StateMachine.Synchronizing then none
                    else s.sync_waiting_for_add_blocks_since }, [])
              else
                -- Mismatching superblock: restore from storage
                ({ s with
                    sm_state := StateMachine.WaitingConsensus
                    chain_state := ops.storage_snapshot
                    sync_waiting_for_add_blocks_since := none }, [])
            else
              let s := add_blocks_process_part2 ops s sync_target epoch_of_the_last_block
                blocks2 blocks3 epoch2 superblock_period
              ({ s with sync_waiting_for_add_blocks_since :=
                  if s.sm_state ≠ StateMachine.Synchronizing then none
                  else s.sync_waiting_for_add_blocks_since }, [])
  | StateMachine.AlmostSynced | StateMachine.Synced =>
    ({ s with sync_waiting_for_add_blocks_since := none }, [])

/-- Embedding of `Handler<PeersBeacons>` for the chain manager: returns
the new state, the unregister list (the handler's `Ok` result) and the
effects. -/
def handle_peers_beacons (ops : ChainOps σ) (s : CMState σ)
    (peers_beacons : PeersBeacons) : CMState σ × List Nat × List Effect :=
  -- Activate peers beacons index to continue synced
  let s :=
    if peers_beacons.pb ≠ [] then { s with peers_beacons_received := true } else s
  let consensus_threshold := s.consensus_c
  let beacon_consensus := peers_beacons.superblock_consensus consensus_threshold
  let outbound_limit := peers_beacons.outbound_limit
  let pb_len := peers_beacons.pb.length
  let peers_needed_for_consensus :=
    (outbound_limit.map (fun x => (x * consensus_threshold + 99) / 100)).getD 1
  let peers_with_no_beacon := peers_beacons.peers_with_no_beacon
  let peers_to_unregister :=
    match beacon_consensus with
    | some (consensus, is_there_block_consensus) =>
      if is_there_block_consensus then
        peers_beacons.decide_peers_to_unregister consensus.highest_block_checkpoint
      else
        peers_beacons.decide_peers_to_unregister_s consensus.highest_superblock_checkpoint
    | none =>
      if pb_len < peers_needed_for_consensus then
        -- Not enough outbound peers, do not unregister any peers
        []
      else if s.sm_state = StateMachine.AlmostSynced
          ∨ s.sm_state = StateMachine.Synced then
        -- No consensus in AlmostSynced or Synced: unregister the peers
        -- that do not coincide with our last beacon
        peers_beacons.decide_peers_to_unregister (ops.get_chain_beacon s.chain_state)
      else
        -- No consensus: unregister all peers
        peers_beacons.pb.map (fun (q : Nat × Option LastBeacon) => q.1)
  let beacon_consensus := beacon_consensus.map (fun q => q.1)
  let (s, result, effects) :=
    match s.sm_state with
    | StateMachine.WaitingConsensus =>
      match beacon_consensus with
      | some lb =>
        let superblock_consensus := lb.highest_superblock_checkpoint
        let consensus_beacon := lb.highest_block_checkpoint
        let s := { s with sync_target := some ⟨consensus_beacon, superblock_consensus⟩ }
        let our_beacon := ops.get_chain_beacon s.chain_state
        if consensus_beacon.hash_prev_block = ops.bootstrap_hash then
          -- The consensus is that there is no genesis block yet
          ({ s with sm_state := StateMachine.WaitingConsensus }, peers_to_unregister, [])
        else if our_beacon = consensus_beacon then
          ({ s with sm_state := StateMachine.AlmostSynced }, peers_to_unregister, [])
        else if our_beacon.checkpoint = consensus_beacon.checkpoint
            ∧ our_beacon.hash_prev_block ≠ consensus_beacon.hash_prev_block then
          -- Fork case: restore from storage
          ({ s with
              sm_state := StateMachine.WaitingConsensus
              chain_state := ops.storage_snapshot }, peers_to_unregister, [])
        else
          -- Review candidates
          let consensus_block_hash := consensus_beacon.hash_prev_block
          let candidate := (s.candidates.find? (fun (kv : Nat × Block) =>
            decide (kv.1 = consensus_block_hash))).map (fun (kv : Nat × Block) => kv.2)
          -- Clear candidates, as they are only valid for one epoch
          let s := { s with candidates := [], seen_candidates := [] }
          match candidate with
          | some consensus_block =>
            let (ok, cs) := ops.process_requested_block s.chain_state consensus_block
            let s := { s with chain_state := cs }
            if ok then
              ({ s with sm_state := StateMachine.AlmostSynced }, peers_to_unregister, [])
            else
              ({ s with sm_state := StateMachine.Synchronizing }, peers_to_unregister,
                [Effect.RequestBlocksBatch])
          | none =>
            ({ s with sm_state := StateMachine.Synchronizing }, peers_to_unregister,
              [Effect.RequestBlocksBatch])
      | none => (s, peers_to_unregister, [])
    | StateMachine.Synchronizing =>
      match beacon_consensus with
      | some lb =>
        let s :=
          { s with sync_target := some ⟨lb.highest_block_checkpoint, lb.highest_superblock_checkpoint⟩ }
        let our_beacon := ops.get_chain_beacon s.chain_state
        if our_beacon = lb.highest_block_checkpoint then
          ({ s with sm_state := StateMachine.AlmostSynced }, peers_to_unregister, [])
        else if our_beacon.checkpoint = lb.highest_block_checkpoint.checkpoint
            ∧ our_beacon.hash_prev_block ≠ lb.highest_block_checkpoint.hash_prev_block then
          -- Fork case: restore from storage
          ({ s with
              sm_state := StateMachine.WaitingConsensus
              chain_state := ops.storage_snapshot }, peers_to_unregister, [])
        else
          ({ s with sm_state := StateMachine.Synchronizing }, peers_to_unregister, [])
      | none =>
        ({ s with sm_state := StateMachine.WaitingConsensus }, peers_to_unregister, [])
    | StateMachine.AlmostSynced | StateMachine.Synced =>
      let our_beacon := ops.get_chain_beacon s.chain_state
      match beacon_consensus with
      | some lb =>
        if lb.highest_block_checkpoint = our_beacon then
          if s.sm_state = StateMachine.AlmostSynced then
            -- The only point in the whole base code where the state
            -- machine moves into Synced; replay the deferred votes
            ({ s with
                sm_state := StateMachine.Synced
                chain_state := ops.add_temp_superblock_votes s.chain_state },
              peers_to_unregister, [Effect.AddTempSuperblockVotes])
          else
            (s, peers_to_unregister, [])
        else
          -- Out of consensus: stay put until the next superblock vote
          (s, peers_with_no_beacon, [])
      | none => (s, peers_with_no_beacon, [])
  let effects :=
    if s.sm_state = StateMachine.Synchronizing then
      match s.sync_waiting_for_add_blocks_since, s.current_epoch with
      | some sync_start_epoch, some current_epoch =>
        if 10 ≤ current_epoch - sync_start_epoch then
          effects ++ [Effect.RequestBlocksBatch]
        else effects
      | _, _ => effects
    else effects
  (s, result, effects)

/-- Chain-manager errors surfaced by the RPC-facing handlers. -/
inductive ChainManagerError
  | ChainNotReady
  | NotSynced (current_state : StateMachine)
  | TransactionFactoryError
deriving DecidableEq, Repr

/-- Embedding of `Handler<BuildVtt>`: reject with `NotSynced` unless the
state machine is Synced; otherwise run the transaction factory (modelled
in `ChainOps.build_vtt`). -/
def handle_build_vtt (ops : ChainOps σ) (s : CMState σ) :
    Except ChainManagerError Nat × CMState σ :=
  if s.sm_state ≠ StateMachine.Synced then
    (Except.error (ChainManagerError.NotSynced s.sm_state), s)
  else
    match ops.build_vtt s.chain_state with
    | none => (Except.error ChainManagerError.TransactionFactoryError, s)
    | some (tx_hash, cs) => (Except.ok tx_hash, { s with chain_state := cs })

/-- Embedding of `Handler<BuildDrt>`: reject with `NotSynced` unless
Synced, validate the RAD request, then run the transaction factory. -/
def handle_build_drt (ops : ChainOps σ) (s : CMState σ) :
    Except ChainManagerError Nat × CMState σ :=
  if s.sm_state ≠ StateMachine.Synced then
    (Except.error (ChainManagerError.NotSynced s.sm_state), s)
  else if !ops.validate_rad_request then
    (Except.error ChainManagerError.TransactionFactoryError, s)
  else
    match ops.build_drt s.chain_state with
    | none => (Except.error ChainManagerError.TransactionFactoryError, s)
    | some (tx_hash, cs) => (Except.ok tx_hash, { s with chain_state := cs })

/-- Embedding of `Handler<GetBalance>`: reject with `NotSynced` unless
Synced; otherwise a read-only balance query. -/
def handle_get_balance (ops : ChainOps σ) (s : CMState σ) (pkh : Nat) :
    Except ChainManagerError Nat × CMState σ :=
  if s.sm_state ≠ StateMachine.Synced then
    (Except.error (ChainManagerError.NotSynced s.sm_state), s)
  else
    (Except.ok (ops.get_total_balance s.chain_state pkh), s)

/-- A concrete instantiation of the modelled collaborators over `σ = Nat`,
used by the witnesses and counterexamples: the stored snapshot is the
state `1`, block processing succeeds on every block, and the superblock
constructed during sync always hashes to `55`. -/
def natOps : ChainOps Nat :=
  { storage_snapshot := 1
    get_chain_beacon := fun _ => ⟨100, 7⟩
    get_superblock_beacon := fun _ => ⟨10, 8⟩
    superblock_state_beacon := fun _ => ⟨10, 8⟩
    chain_info_present := fun _ => true
    reputation_engine_present := fun _ => true
    process_requested_block := fun cs _ => (true, cs)
    process_blocks_batch := fun cs _ bl => (true, bl.length, cs)
    update_ars_empty := fun cs _ => cs
    persist_blocks_batch := fun cs _ => cs
    persist_data_requests := fun cs => cs
    construct_superblock := fun cs _ => (55, cs)
    consolidate_superblock := fun cs => cs
    consolidate_block := fun cs _ => cs
    update_ars_with_no_blocks := fun cs _ => cs
    add_temp_superblock_votes := fun cs => cs + 10
    clear_pending_transactions := fun cs => cs
    clear_commits := fun cs => cs
    build_vtt := fun cs => some (42, cs)
    validate_rad_request := true
    build_drt := fun cs => some (43, cs)
    get_total_balance := fun _ _ => 0
    genesis_hash := 1000
    bootstrap_hash := 2000
    superblock_period := 10 }

/-- A concrete chain-manager state over `σ = Nat` in a given machine
state, used by the witnesses and counterexamples. -/
def natState (sm : StateMachine) : CMState Nat :=
  { sm_state := sm
    current_epoch := some 50
    peers_beacons_received := true
    sync_target := some ⟨⟨100, 7⟩, ⟨10, 8⟩⟩
    sync_waiting_for_add_blocks_since := none
    candidates := []
    seen_candidates := []
    best_candidate := none
    consensus_c := 60
    epoch_constants_present := true
    vrf_ctx_present := true
    secp_present := true
    mining_enabled := false
    chain_state := 0
    last_chain_state := 0 }

/-- C9: for every BuildVtt, BuildDrt and GetBalance message received while
the state machine is in any state other than Synced, the handler returns a
`NotSynced` error carrying the current state and leaves the whole
chain-manager state (hence the UTXO pool, own-UTXO index and transactions
pool inside the chain state) unchanged. -/
theorem claim_c9_not_synced_rejection {σ : Type} (ops : ChainOps σ) (s : CMState σ)
    (pkh : Nat) (h : s.sm_state ≠ StateMachine.Synced) :
    handle_build_vtt ops s = (Except.error (ChainManagerError.NotSynced s.sm_state), s)
    ∧ handle_build_drt ops s = (Except.error (ChainManagerError.NotSynced s.sm_state), s)
    ∧ handle_get_balance ops s pkh
        = (Except.error (ChainManagerError.NotSynced s.sm_state), s) := by
  refine ⟨?_, ?_, ?_⟩ <;>
    simp [handle_build_vtt, handle_build_drt, handle_get_balance, h]

/-- Witness for C9 in the WaitingConsensus state. -/
theorem claim_c9_not_synced_rejection_witness :
    (natState StateMachine.WaitingConsensus).sm_state ≠ StateMachine.Synced
    ∧ handle_build_vtt natOps (natState StateMachine.WaitingConsensus)
        = (Except.error (ChainManagerError.NotSynced StateMachine.WaitingConsensus),
           natState StateMachine.WaitingConsensus)
    ∧ handle_build_drt natOps (natState StateMachine.WaitingConsensus)
        = (Except.error (ChainManagerError.NotSynced StateMachine.WaitingConsensus),
           natState StateMachine.WaitingConsensus)
    ∧ handle_get_balance natOps (natState StateMachine.WaitingConsensus) 3
        = (Except.error (ChainManagerError.NotSynced StateMachine.WaitingConsensus),
           natState StateMachine.WaitingConsensus) :=
  ⟨by decide,
    (claim_c9_not_synced_rejection natOps (natState StateMachine.WaitingConsensus) 3
      (by decide)).1,
    (claim_c9_not_synced_rejection natOps (natState StateMachine.WaitingConsensus) 3
      (by decide)).2.1,
    (claim_c9_not_synced_rejection natOps (natState StateMachine.WaitingConsensus) 3
      (by decide)).2.2⟩

/-- C10: while the state machine is in WaitingConsensus, the AddBlocks
handler consolidates a block (runs `process_requested_block`) exactly when
the received batch is a single block whose hash equals the configured
genesis hash; for every other batch it leaves the chain state and the
state machine unchanged. -/
theorem claim_c10_waiting_consensus_genesis_only {σ : Type} (ops : ChainOps σ)
    (s : CMState σ) (blocks : List Block)
    (hsm : s.sm_state = StateMachine.WaitingConsensus) :
    (∀ block, blocks = [block] → block.hash = ops.genesis_hash →
      (handle_add_blocks ops s blocks).1.chain_state
        = (ops.process_requested_block s.chain_state block).2
      ∧ (handle_add_blocks ops s blocks).1.sm_state = StateMachine.WaitingConsensus)
    ∧ (¬ (∃ block, blocks = [block] ∧ block.hash = ops.genesis_hash) →
      (handle_add_blocks ops s blocks).1.chain_state = s.chain_state
      ∧ (handle_add_blocks ops s blocks).1.sm_state = s.sm_state) := by
  constructor
  · intro block hbl hgen
    subst hbl
    rcases hpr : ops.process_requested_block s.chain_state block with ⟨ok, cs⟩
    simp only [handle_add_blocks, hsm, hgen, if_pos, hpr]
    cases ok <;> simp
  · intro hne
    match blocks with
    | [] => simp [handle_add_blocks, hsm]
    | [block] =>
      have hgen : ¬ block.hash = ops.genesis_hash := fun h => hne ⟨block, rfl, h⟩
      simp [handle_add_blocks, hsm, hgen]
    | b1 :: b2 :: rest => simp [handle_add_blocks, hsm]

/-- Witness for C10: a genesis block is consolidated; a single non-genesis
block leaves the state unchanged. -/
theorem claim_c10_waiting_consensus_genesis_only_witness :
    ((natState StateMachine.WaitingConsensus).sm_state = StateMachine.WaitingConsensus
      ∧ (mkBlock 0 1000).hash = natOps.genesis_hash
      ∧ (mkBlock 0 999).hash ≠ natOps.genesis_hash)
    ∧ (handle_add_blocks natOps (natState StateMachine.WaitingConsensus)
        [mkBlock 0 1000]).1.chain_state
      = (natOps.process_requested_block
          (natState StateMachine.WaitingConsensus).chain_state (mkBlock 0 1000)).2
    ∧ (handle_add_blocks natOps (natState StateMachine.WaitingConsensus)
        [mkBlock 0 999]).1.chain_state
      = (natState StateMachine.WaitingConsensus).chain_state :=
  ⟨⟨by decide, by decide, by decide⟩,
    ((claim_c10_waiting_consensus_genesis_only natOps
        (natState StateMachine.WaitingConsensus) [mkBlock 0 1000] (by decide)).1
      (mkBlock 0 1000) rfl (by decide)).1,
    ((claim_c10_waiting_consensus_genesis_only natOps
        (natState StateMachine.WaitingConsensus) [mkBlock 0 999] (by decide)).2
      (by
        rintro ⟨block, hb, hh⟩
        rw [List.cons.injEq] at hb
        rw [← hb.1] at hh
        exact absurd hh (by decide))).1⟩

/-- C8: on every epoch tick with checkpoint `e`: if `peers_beacons_received`
is false the state machine moves to WaitingConsensus and the candidate set
is cleared; if a previous epoch `prev` was recorded and `e − prev ≠ 1` the
state machine moves to WaitingConsensus; and after a regression caused by
`peers_beacons_received = false` in Synced, the node's last beacon is still
broadcast to inbound-only sessions, provided chain info is present. -/
theorem claim_c8_epoch_tick_regression {σ : Type} (ops : ChainOps σ) (s : CMState σ)
    (checkpoint : Nat) :
    (s.peers_beacons_received = false →
      (handle_epoch_notification ops s checkpoint).1.sm_state
          = StateMachine.WaitingConsensus
      ∧ (handle_epoch_notification ops s checkpoint).1.candidates = [])
    ∧ (∀ prev, s.current_epoch = some prev → checkpoint - prev ≠ 1 →
      (handle_epoch_notification ops s checkpoint).1.sm_state
        = StateMachine.WaitingConsensus)
    ∧ (s.sm_state = StateMachine.Synced → s.peers_beacons_received = false →
      ops.chain_info_present (ops.clear_pending_transactions s.chain_state) = true →
      ∃ lb, Effect.BroadcastLastBeacon lb true
        ∈ (handle_epoch_notification ops s checkpoint).2) := by
  refine ⟨?_, ?_, ?_⟩
  · intro hpbr
    rcases hce : s.current_epoch with _ | prev
    · by_cases hci : ops.chain_info_present (ops.clear_pending_transactions s.chain_state)
          = true
      · simp [handle_epoch_notification, hpbr, hce, hci]
      · simp [handle_epoch_notification, hpbr, hce, hci]
    · by_cases hdiff : checkpoint - prev = 1
      · by_cases hci : ops.chain_info_present (ops.clear_pending_transactions s.chain_state)
            = true
        · simp [handle_epoch_notification, hpbr, hce, hdiff, hci]
        · simp [handle_epoch_notification, hpbr, hce, hdiff, hci]
      · by_cases hci : ops.chain_info_present (ops.clear_pending_transactions s.chain_state)
            = true
        · simp [handle_epoch_notification, hpbr, hce, hdiff, hci]
        · simp [handle_epoch_notification, hpbr, hce, hdiff, hci]
  · intro prev hprev hne
    rcases hpbr : s.peers_beacons_received
    · by_cases hci : ops.chain_info_present (ops.clear_pending_transactions s.chain_state)
          = true
      · simp [handle_epoch_notification, hpbr, hprev, hne, hci]
      · simp [handle_epoch_notification, hpbr, hprev, hne, hci]
    · by_cases hci : ops.chain_info_present (ops.clear_pending_transactions s.chain_state)
          = true
      · simp [handle_epoch_notification, hpbr, hprev, hne, hci]
      · simp [handle_epoch_notification, hpbr, hprev, hne, hci]
  · intro _hsm hpbr hci
    rcases hce : s.current_epoch with _ | prev
    · refine ⟨⟨ops.get_chain_beacon (ops.clear_pending_transactions s.chain_state),
        ops.get_superblock_beacon (ops.clear_pending_transactions s.chain_state)⟩, ?_⟩
      simp [handle_epoch_notification, hpbr, hce, hci]
    · by_cases hdiff : checkpoint - prev = 1
      · refine ⟨⟨ops.get_chain_beacon (ops.clear_pending_transactions s.chain_state),
          ops.get_superblock_beacon (ops.clear_pending_transactions s.chain_state)⟩, ?_⟩
        simp [handle_epoch_notification, hpbr, hce, hdiff, hci]
      · refine ⟨⟨ops.get_chain_beacon (ops.clear_pending_transactions s.chain_state),
          ops.get_superblock_beacon (ops.clear_pending_transactions s.chain_state)⟩, ?_⟩
        simp [handle_epoch_notification, hpbr, hce, hdiff, hci]

/-- Witness for C8: a Synced node with `peers_beacons_received = false`
receiving tick 52 after epoch 50 regresses to WaitingConsensus, clears
candidates, and still broadcasts its beacon inbound-only. -/
theorem claim_c8_epoch_tick_regression_witness :
    ({ natState StateMachine.Synced with
        peers_beacons_received := false }.peers_beacons_received = false
      ∧ { natState StateMachine.Synced with
          peers_beacons_received := false }.current_epoch = some 50
      ∧ (52 : Nat) - 50 ≠ 1)
    ∧ (handle_epoch_notification natOps
        { natState StateMachine.Synced with peers_beacons_received := false }
        52).1.sm_state = StateMachine.WaitingConsensus
    ∧ (handle_epoch_notification natOps
        { natState StateMachine.Synced with peers_beacons_received := false }
        52).1.candidates = []
    ∧ ∃ lb, Effect.BroadcastLastBeacon lb true
        ∈ (handle_epoch_notification natOps
            { natState StateMachine.Synced with peers_beacons_received := false } 52).2 :=
  ⟨⟨by decide, by decide, by decide⟩,
    ((claim_c8_epoch_tick_regression natOps
        { natState StateMachine.Synced with peers_beacons_received := false } 52).1
      (by decide)).1,
    ((claim_c8_epoch_tick_regression natOps
        { natState StateMachine.Synced with peers_beacons_received := false } 52).1
      (by decide)).2,
    (claim_c8_epoch_tick_regression natOps
        { natState StateMachine.Synced with peers_beacons_received := false } 52).2.2
      (by decide) (by decide) (by decide)⟩

/-- C5 (amended): when `superblock_consensus` returns `none`: in the
WaitingConsensus and Synchronizing states the handler unregisters no peers
if `|pb|` is strictly below `(outbound_limit·τ + 99)/100` and every peer
in the snapshot otherwise; in the AlmostSynced and Synced states it
unregisters exactly the peers that reported no beacon, regardless of the
threshold (the set of peers disagreeing with our chain beacon is computed
but superseded by the state match). -/
theorem claim_c5_no_consensus_unregister {σ : Type} (ops : ChainOps σ) (s : CMState σ)
    (peers_beacons : PeersBeacons)
    (hnone : peers_beacons.superblock_consensus s.consensus_c = none) :
    ((s.sm_state = StateMachine.WaitingConsensus
        ∨ s.sm_state = StateMachine.Synchronizing) →
      (handle_peers_beacons ops s peers_beacons).2.1
        = if peers_beacons.pb.length
            < (peers_beacons.outbound_limit.map
                (fun x => (x * s.consensus_c + 99) / 100)).getD 1
          then []
          else peers_beacons.pb.map (fun (q : Nat × Option LastBeacon) => q.1))
    ∧ ((s.sm_state = StateMachine.AlmostSynced ∨ s.sm_state = StateMachine.Synced) →
      (handle_peers_beacons ops s peers_beacons).2.1
        = peers_beacons.peers_with_no_beacon) := by
  constructor
  · rintro (hsm | hsm) <;>
      · by_cases hpb : peers_beacons.pb = []
        · simp [handle_peers_beacons, hpb, hnone, hsm]
        · simp [handle_peers_beacons, hpb, hnone, hsm]
  · rintro (hsm | hsm) <;>
      · by_cases hpb : peers_beacons.pb = []
        · simp [handle_peers_beacons, hpb, hnone, hsm]
        · simp [handle_peers_beacons, hpb, hnone, hsm]

/-- A two-peer snapshot with outbound limit 2 whose superblock votes tie,
so there is no consensus while `|pb|` meets the threshold. -/
def c5pb : PeersBeacons :=
  { pb := [(1, some ⟨⟨1, 1⟩, ⟨3, 3⟩⟩), (2, some ⟨⟨2, 2⟩, ⟨4, 4⟩⟩)]
    outbound_limit := some 2 }

/-- C5 counterexample: in the Synced state with no superblock consensus
and `|pb| = 2 ≥ ⌈2·60/100⌉`, the claim demands unregistering exactly the
peers disagreeing with our chain beacon (both of them here), but the
handler returns only the peers that sent no beacon (none here). -/
theorem claim_c5_counterexample :
    c5pb.superblock_consensus 60 = none
    ∧ ¬ (c5pb.pb.length < (2 * 60 + 99) / 100)
    ∧ (natState StateMachine.Synced).sm_state = StateMachine.Synced
    ∧ c5pb.decide_peers_to_unregister
        (natOps.get_chain_beacon (natState StateMachine.Synced).chain_state) = [1, 2]
    ∧ (handle_peers_beacons natOps (natState StateMachine.Synced) c5pb).2.1 = [] := by
  refine ⟨by decide, by decide, by decide, by decide, by decide⟩

/-- Witness for the amended C5, using the tied snapshot `c5pb`: in
WaitingConsensus all peers are unregistered, in Synced only the (here
absent) no-beacon peers are. -/
theorem claim_c5_no_consensus_unregister_witness :
    c5pb.superblock_consensus 60 = none
    ∧ (handle_peers_beacons natOps (natState StateMachine.WaitingConsensus) c5pb).2.1
        = (if c5pb.pb.length
              < (c5pb.outbound_limit.map (fun x => (x * 60 + 99) / 100)).getD 1
           then []
           else c5pb.pb.map (fun (q : Nat × Option LastBeacon) => q.1))
    ∧ (handle_peers_beacons natOps (natState StateMachine.Synced) c5pb).2.1
        = c5pb.peers_with_no_beacon :=
  ⟨by decide,
    (claim_c5_no_consensus_unregister natOps (natState StateMachine.WaitingConsensus)
      c5pb (by decide)).1 (Or.inl rfl),
    (claim_c5_no_consensus_unregister natOps (natState StateMachine.Synced)
      c5pb (by decide)).2 (Or.inr rfl)⟩

/-- C3 (amended): when `superblock_consensus` yields a consensus, the set
of peers the handler returns for unregistering is the block-disagreement
set (on block majority) or the superblock-disagreement set (otherwise) in
the WaitingConsensus and Synchronizing states, and also in AlmostSynced
and Synced when the consensus block equals our chain beacon; in
AlmostSynced and Synced with a consensus block different from our beacon
the handler instead returns only the peers that sent no beacon.
`decide_peers_to_unregister B` itself returns exactly the peers whose
reported block beacon differs from `B` or is absent. -/
theorem claim_c3_unregister_on_consensus {σ : Type} (ops : ChainOps σ) (s : CMState σ)
    (peers_beacons : PeersBeacons) (consensus : LastBeacon) (is_maj : Bool)
    (hcons : peers_beacons.superblock_consensus s.consensus_c = some (consensus, is_maj)) :
    ((s.sm_state = StateMachine.WaitingConsensus
        ∨ s.sm_state = StateMachine.Synchronizing
        ∨ consensus.highest_block_checkpoint = ops.get_chain_beacon s.chain_state) →
      (handle_peers_beacons ops s peers_beacons).2.1
        = if is_maj then
            peers_beacons.decide_peers_to_unregister consensus.highest_block_checkpoint
          else
            peers_beacons.decide_peers_to_unregister_s
              consensus.highest_superblock_checkpoint)
    ∧ ((s.sm_state = StateMachine.AlmostSynced ∨ s.sm_state = StateMachine.Synced) →
        consensus.highest_block_checkpoint ≠ ops.get_chain_beacon s.chain_state →
      (handle_peers_beacons ops s peers_beacons).2.1
        = peers_beacons.peers_with_no_beacon)
    ∧ (∀ B a, a ∈ peers_beacons.decide_peers_to_unregister B ↔
        ∃ ob, (a, ob) ∈ peers_beacons.pb
          ∧ (ob = none ∨ ∃ lb, ob = some lb ∧ lb.highest_block_checkpoint ≠ B)) := by
  refine ⟨?_, ?_, ?_⟩
  · intro hstate
    cases is_maj <;>
      rcases hsm4 : s.sm_state with _ | _ | _ | _
    case WaitingConsensus | WaitingConsensus =>
      by_cases hpb : peers_beacons.pb = [] <;>
        by_cases c1 : consensus.highest_block_checkpoint.hash_prev_block
            = ops.bootstrap_hash <;>
        by_cases c2 : ops.get_chain_beacon s.chain_state
            = consensus.highest_block_checkpoint <;>
        by_cases c3 : (ops.get_chain_beacon s.chain_state).checkpoint
              = consensus.highest_block_checkpoint.checkpoint
            ∧ (ops.get_chain_beacon s.chain_state).hash_prev_block
              ≠ consensus.highest_block_checkpoint.hash_prev_block <;>
        rcases hfind : s.candidates.find? (fun (kv : Nat × Block) =>
            decide (kv.1 = consensus.highest_block_checkpoint.hash_prev_block))
          with _ | kv <;>
        simp [handle_peers_beacons, apply_ite, hpb, hcons, hsm4, c1, c2, c3, hfind] <;>
        (try (split <;> simp))
    case Synchronizing | Synchronizing =>
      by_cases hpb : peers_beacons.pb = [] <;>
        by_cases c2 : ops.get_chain_beacon s.chain_state
            = consensus.highest_block_checkpoint <;>
        by_cases c3 : (ops.get_chain_beacon s.chain_state).checkpoint
              = consensus.highest_block_checkpoint.checkpoint
            ∧ (ops.get_chain_beacon s.chain_state).hash_prev_block
              ≠ consensus.highest_block_checkpoint.hash_prev_block <;>
        simp [handle_peers_beacons, apply_ite, hpb, hcons, hsm4, c2, c3]
    all_goals {
      have heq : consensus.highest_block_checkpoint = ops.get_chain_beacon s.chain_state := by
        rcases hstate with h | h | h
        · rw [hsm4] at h
          exact absurd h (by decide)
        · rw [hsm4] at h
          exact absurd h (by decide)
        · exact h
      by_cases hpb : peers_beacons.pb = [] <;>
        simp [handle_peers_beacons, apply_ite, hpb, hcons, hsm4, heq]
    }
  · rintro (hsm | hsm) hne <;>
      · by_cases hpb : peers_beacons.pb = []
        · simp [handle_peers_beacons, hpb, hcons, hsm, hne]
        · simp [handle_peers_beacons, hpb, hcons, hsm, hne]
  · intro B a
    rw [PeersBeacons.decide_peers_to_unregister, List.mem_filterMap]
    constructor
    · rintro ⟨⟨a', ob⟩, hmem, hf⟩
      rcases ob with _ | lb
      · obtain rfl : a' = a := by simpa using hf
        exact ⟨none, hmem, Or.inl rfl⟩
      · by_cases hlb : lb.highest_block_checkpoint = B
        · simp [hlb] at hf
        · obtain rfl : a' = a := by simpa [hlb] using hf
          exact ⟨some lb, hmem, Or.inr ⟨lb, rfl, hlb⟩⟩
    · rintro ⟨ob, hmem, hcase⟩
      refine ⟨(a, ob), hmem, ?_⟩
      rcases hcase with rfl | ⟨lb, rfl, hlb⟩
      · simp
      · simp [hlb]

/-- A three-peer snapshot with outbound limit 3: all agree on superblock
`⟨9,9⟩`, two agree on block `⟨5,5⟩` and one reports block `⟨6,6⟩`, so with
τ = 60 there is a block majority. -/
def c3pb : PeersBeacons :=
  { pb := [(1, some ⟨⟨5, 5⟩, ⟨9, 9⟩⟩), (2, some ⟨⟨5, 5⟩, ⟨9, 9⟩⟩),
           (3, some ⟨⟨6, 6⟩, ⟨9, 9⟩⟩)]
    outbound_limit := some 3 }

/-- C3 counterexample: in the Synced state with a block-majority consensus
`⟨5,5⟩` different from our chain beacon, the claim demands unregistering
exactly the peers disagreeing with the consensus block (peer 3), but the
handler returns only the peers that sent no beacon (none here). -/
theorem claim_c3_counterexample :
    c3pb.superblock_consensus 60 = some (⟨⟨5, 5⟩, ⟨9, 9⟩⟩, true)
    ∧ c3pb.decide_peers_to_unregister ⟨5, 5⟩ = [3]
    ∧ (natState StateMachine.Synced).sm_state = StateMachine.Synced
    ∧ (handle_peers_beacons natOps (natState StateMachine.Synced) c3pb).2.1 = [] := by
  refine ⟨by decide, by decide, by decide, by decide⟩

/-- Witness for the amended C3, using the snapshot `c3pb`: in
WaitingConsensus the block-disagreement set is returned, in Synced with a
diverging consensus only the no-beacon peers are, and
`decide_peers_to_unregister` membership is as characterized. -/
theorem claim_c3_unregister_on_consensus_witness :
    c3pb.superblock_consensus 60 = some (⟨⟨5, 5⟩, ⟨9, 9⟩⟩, true)
    ∧ (handle_peers_beacons natOps (natState StateMachine.WaitingConsensus) c3pb).2.1
        = (if true then c3pb.decide_peers_to_unregister ⟨5, 5⟩
           else c3pb.decide_peers_to_unregister_s ⟨9, 9⟩)
    ∧ (handle_peers_beacons natOps (natState StateMachine.Synced) c3pb).2.1
        = c3pb.peers_with_no_beacon
    ∧ (3 ∈ c3pb.decide_peers_to_unregister ⟨5, 5⟩ ↔
        ∃ ob, ((3 : Nat), ob) ∈ c3pb.pb
          ∧ (ob = none ∨ ∃ lb, ob = some lb ∧ lb.highest_block_checkpoint ≠ ⟨5, 5⟩)) :=
  ⟨by decide,
    (claim_c3_unregister_on_consensus natOps (natState StateMachine.WaitingConsensus) c3pb
      ⟨⟨5, 5⟩, ⟨9, 9⟩⟩ true (by decide)).1 (Or.inl rfl),
    (claim_c3_unregister_on_consensus natOps (natState StateMachine.Synced) c3pb
      ⟨⟨5, 5⟩, ⟨9, 9⟩⟩ true (by decide)).2.1 (Or.inr rfl) (by decide),
    (claim_c3_unregister_on_consensus natOps (natState StateMachine.Synced) c3pb
      ⟨⟨5, 5⟩, ⟨9, 9⟩⟩ true (by decide)).2.2 ⟨5, 5⟩ 3⟩

/-- C2 (amended): while Synchronizing with a sync target set, the AddBlocks
handler moves the state to WaitingConsensus when the received batch is
empty, when processing any of the three block parts fails, and when the
superblock constructed at the target epoch has a hash different from the
target's `hash_prev_block`; the chain state is restored from storage in
the empty-batch and superblock-mismatch cases, while the invalid-batch
branches regress to WaitingConsensus without restoring. -/
theorem claim_c2_add_blocks_sync_failures {σ : Type} (ops : ChainOps σ) (s : CMState σ)
    (t : SyncTarget) (hsm : s.sm_state = StateMachine.Synchronizing)
    (htgt : s.sync_target = some t) :
    ((handle_add_blocks ops s []).1.sm_state = StateMachine.WaitingConsensus
      ∧ (handle_add_blocks ops s []).1.chain_state = ops.storage_snapshot)
    ∧ (∀ blocks, blocks ≠ [] →
        (ops.process_blocks_batch s.chain_state t
          (split_blocks_batch_at_target blocks.tail (s.current_epoch.getD 0) t
            ops.superblock_period).1).1 = false →
        (handle_add_blocks ops s blocks).1.sm_state = StateMachine.WaitingConsensus
        ∧ (handle_add_blocks ops s blocks).1.chain_state
            = (ops.process_blocks_batch s.chain_state t
                (split_blocks_batch_at_target blocks.tail (s.current_epoch.getD 0) t
                  ops.superblock_period).1).2.2)
    ∧ (∀ blocks bl2, blocks ≠ [] →
        (ops.process_blocks_batch s.chain_state t
          (split_blocks_batch_at_target blocks.tail (s.current_epoch.getD 0) t
            ops.superblock_period).1).1 = true →
        (split_blocks_batch_at_target blocks.tail (s.current_epoch.getD 0) t
          ops.superblock_period).2.1 = some bl2 →
        t.superblock.checkpoint
          ≠ (ops.superblock_state_beacon
              (ops.process_blocks_batch s.chain_state t
                (split_blocks_batch_at_target blocks.tail (s.current_epoch.getD 0) t
                  ops.superblock_period).1).2.2).checkpoint →
        (∀ cs, (ops.construct_superblock cs
            (t.superblock.checkpoint * ops.superblock_period)).1
          ≠ t.superblock.hash_prev_block) →
        (handle_add_blocks ops s blocks).1.sm_state = StateMachine.WaitingConsensus
        ∧ (handle_add_blocks ops s blocks).1.chain_state = ops.storage_snapshot)
    ∧ (∀ (s' : CMState σ) eol bl2 bl3 e2,
        (ops.process_blocks_batch s'.chain_state t bl2).1 = false →
        (add_blocks_process_part2 ops s' t eol bl2 bl3 e2
            ops.superblock_period).sm_state = StateMachine.WaitingConsensus)
    ∧ (∀ (s' : CMState σ) bl3,
        (add_blocks_process_part3 ops s' t bl3).sm_state
          = StateMachine.WaitingConsensus) := by
  refine ⟨?_, ?_, ?_, ?_, ?_⟩
  · simp [handle_add_blocks, hsm, htgt]
  · intro blocks hne hfail
    rcases hsp : split_blocks_batch_at_target blocks.tail (s.current_epoch.getD 0) t
        ops.superblock_period with ⟨bl1, bl2o, bl3o, bl4o, e2⟩
    rw [hsp] at hfail
    simp only at hfail
    rcases hpr : ops.process_blocks_batch s.chain_state t bl1 with ⟨ok, npb, cs⟩
    rw [hpr] at hfail
    simp only at hfail
    subst hfail
    simp [handle_add_blocks, hsm, htgt, hne, hsp, hpr]
  · intro blocks bl2 hne hok hbl2 hneed hmis
    rcases hsp : split_blocks_batch_at_target blocks.tail (s.current_epoch.getD 0) t
        ops.superblock_period with ⟨bl1, bl2o, bl3o, bl4o, e2⟩
    rw [hsp] at hok hbl2 hneed
    simp only at hok hbl2 hneed
    rcases hpr : ops.process_blocks_batch s.chain_state t bl1 with ⟨ok, npb, cs⟩
    rw [hpr] at hok hneed
    simp only at hok hneed
    subst hok
    subst hbl2
    simp only [handle_add_blocks, hsm, htgt, if_neg hne, hsp, hpr]
    simp only [Bool.not_true, Bool.false_eq_true, if_false, ne_eq, if_pos hneed]
    repeat' split
    all_goals
      first
        | exact absurd (by assumption) (hmis _)
        | exact ⟨rfl, rfl⟩
        | simp
  · intro s' eol bl2 bl3 e2 hfail2
    rcases hpr2 : ops.process_blocks_batch s'.chain_state t bl2 with ⟨ok2, npb2, cs2⟩
    rw [hpr2] at hfail2
    simp only at hfail2
    subst hfail2
    simp [add_blocks_process_part2, hpr2]
  · intro s' bl3
    rcases hpr3 : ops.process_blocks_batch s'.chain_state t bl3 with ⟨ok3, npb3, cs3⟩
    cases ok3 <;> simp [add_blocks_process_part3, hpr3]

/-- The concrete collaborators with always-failing block-batch processing. -/
def c2FailOps : ChainOps Nat :=
  { natOps with process_blocks_batch := fun cs _ _ => (false, 0, cs) }

/-- C2 counterexample: in Synchronizing with a sync target, a non-empty
batch whose part-1 processing fails moves the state machine to
WaitingConsensus but does NOT restore the chain state from storage (the
chain state stays `0` while the stored snapshot is `1`). -/
theorem claim_c2_counterexample :
    (natState StateMachine.Synchronizing).sm_state = StateMachine.Synchronizing
    ∧ (natState StateMachine.Synchronizing).sync_target = some ⟨⟨100, 7⟩, ⟨10, 8⟩⟩
    ∧ (c2FailOps.process_blocks_batch (natState StateMachine.Synchronizing).chain_state
        ⟨⟨100, 7⟩, ⟨10, 8⟩⟩ [mkBlock 1 1]).1 = false
    ∧ (handle_add_blocks c2FailOps (natState StateMachine.Synchronizing)
        [mkBlock 0 0, mkBlock 1 1]).1.sm_state = StateMachine.WaitingConsensus
    ∧ (handle_add_blocks c2FailOps (natState StateMachine.Synchronizing)
        [mkBlock 0 0, mkBlock 1 1]).1.chain_state ≠ c2FailOps.storage_snapshot := by
  refine ⟨by decide, by decide, by decide, by decide, by decide⟩

/-- The Synchronizing witness state for C2's superblock-mismatch case,
whose sync target superblock checkpoint (12) differs from the superblock
state beacon checkpoint (10). -/
def c2MismatchState : CMState Nat :=
  { natState StateMachine.Synchronizing with
      sync_target := some ⟨⟨100, 7⟩, ⟨12, 8⟩⟩ }

/-- Witness for the amended C2: the empty batch restores and regresses;
the failing part-1 batch regresses without restoring; a mismatching target
superblock (constructed hash 55 ≠ 8) restores and regresses; failing
part-2 and part-3 batches regress. -/
theorem claim_c2_add_blocks_sync_failures_witness :
    ((handle_add_blocks natOps (natState StateMachine.Synchronizing) []).1.sm_state
        = StateMachine.WaitingConsensus
      ∧ (handle_add_blocks natOps (natState StateMachine.Synchronizing) []).1.chain_state
        = natOps.storage_snapshot)
    ∧ (handle_add_blocks c2FailOps (natState StateMachine.Synchronizing)
        [mkBlock 0 0, mkBlock 1 1]).1.sm_state = StateMachine.WaitingConsensus
    ∧ ((handle_add_blocks natOps c2MismatchState
          [mkBlock 0 0, mkBlock 119 1, mkBlock 120 2]).1.sm_state
        = StateMachine.WaitingConsensus
      ∧ (handle_add_blocks natOps c2MismatchState
          [mkBlock 0 0, mkBlock 119 1, mkBlock 120 2]).1.chain_state
        = natOps.storage_snapshot)
    ∧ (add_blocks_process_part2 c2FailOps (natState StateMachine.Synchronizing)
        ⟨⟨100, 7⟩, ⟨10, 8⟩⟩ none [mkBlock 100 1] [] none 10).sm_state
      = StateMachine.WaitingConsensus
    ∧ (add_blocks_process_part3 natOps (natState StateMachine.Synchronizing)
        ⟨⟨100, 7⟩, ⟨10, 8⟩⟩ []).sm_state = StateMachine.WaitingConsensus :=
  ⟨(claim_c2_add_blocks_sync_failures natOps (natState StateMachine.Synchronizing)
      ⟨⟨100, 7⟩, ⟨10, 8⟩⟩ (by decide) (by decide)).1,
    ((claim_c2_add_blocks_sync_failures c2FailOps (natState StateMachine.Synchronizing)
      ⟨⟨100, 7⟩, ⟨10, 8⟩⟩ (by decide) (by decide)).2.1
      [mkBlock 0 0, mkBlock 1 1] (by decide) (by decide)).1,
    ((claim_c2_add_blocks_sync_failures natOps c2MismatchState
      ⟨⟨100, 7⟩, ⟨12, 8⟩⟩ (by decide) (by decide)).2.2.1
      [mkBlock 0 0, mkBlock 119 1, mkBlock 120 2] [mkBlock 120 2]
      (by decide) (by decide) (by decide) (by decide)
      (fun cs => by simp [natOps])),
    (claim_c2_add_blocks_sync_failures c2FailOps (natState StateMachine.Synchronizing)
      ⟨⟨100, 7⟩, ⟨10, 8⟩⟩ (by decide) (by decide)).2.2.2.1
      (natState StateMachine.Synchronizing) none [mkBlock 100 1] [] none (by decide),
    (claim_c2_add_blocks_sync_failures natOps (natState StateMachine.Synchronizing)
      ⟨⟨100, 7⟩, ⟨10, 8⟩⟩ (by decide) (by decide)).2.2.2.2
      (natState StateMachine.Synchronizing) []⟩

theorem add_blocks_process_part3_sm (ops : ChainOps σ) (s' : CMState σ)
    (t : SyncTarget) (bl3 : List Block) :
    (add_blocks_process_part3 ops s' t bl3).sm_state = StateMachine.WaitingConsensus := by
  rcases hpr : ops.process_blocks_batch s'.chain_state t bl3 with ⟨ok, npb, cs⟩
  cases ok <;> simp [add_blocks_process_part3, hpr]

theorem add_blocks_process_part2_sm (ops : ChainOps σ) (s' : CMState σ)
    (t : SyncTarget) (eol : Option Nat) (bl2 bl3 : List Block) (e2 : Option Nat)
    (p : Nat) :
    (add_blocks_process_part2 ops s' t eol bl2 bl3 e2 p).sm_state
      = StateMachine.WaitingConsensus := by
  rcases hpr : ops.process_blocks_batch s'.chain_state t bl2 with ⟨ok, npb, cs⟩
  cases ok
  · simp [add_blocks_process_part2, hpr]
  · rcases e2 with _ | idx
    · simp [add_blocks_process_part2, hpr, add_blocks_process_part3_sm]
    · simp [add_blocks_process_part2, hpr, add_blocks_process_part3_sm]

set_option maxHeartbeats 1000000 in
theorem epoch_notification_no_synced_entry (ops : ChainOps σ) (s : CMState σ)
    (checkpoint : Nat)
    (h : (handle_epoch_notification ops s checkpoint).1.sm_state = StateMachine.Synced) :
    s.sm_state = StateMachine.Synced := by
  rcases hsm : s.sm_state
  · -- WaitingConsensus: every dispatch path keeps or sets WaitingConsensus
    exfalso
    rcases hpbr : s.peers_beacons_received <;>
      rcases hce : s.current_epoch with _ | prev <;>
      by_cases hci : ops.chain_info_present (ops.clear_pending_transactions
          s.chain_state) = true <;>
      first
        | (by_cases hdiff : checkpoint - prev = 1 <;>
            simp [handle_epoch_notification, hsm, hpbr, hce, hci, hdiff] at h)
        | simp [handle_epoch_notification, hsm, hpbr, hce, hci] at h
  · -- Synchronizing: regression moves to WaitingConsensus, otherwise stays
    exfalso
    rcases hpbr : s.peers_beacons_received <;>
      rcases hce : s.current_epoch with _ | prev <;>
      by_cases hci : ops.chain_info_present (ops.clear_pending_transactions
          s.chain_state) = true <;>
      first
        | (by_cases hdiff : checkpoint - prev = 1 <;>
            simp [handle_epoch_notification, hsm, hpbr, hce, hci, hdiff] at h)
        | simp [handle_epoch_notification, hsm, hpbr, hce, hci] at h
  · -- AlmostSynced: the consolidation arm never touches sm_state
    exfalso
    rcases hpbr : s.peers_beacons_received
    · rcases hce : s.current_epoch with _ | prev <;>
        by_cases hci : ops.chain_info_present (ops.clear_pending_transactions
            s.chain_state) = true <;>
        first
          | (by_cases hdiff : checkpoint - prev = 1 <;>
              simp [handle_epoch_notification, hsm, hpbr, hce, hci, hdiff] at h)
          | simp [handle_epoch_notification, hsm, hpbr, hce, hci] at h
    · rcases hce : s.current_epoch with _ | prev
      · by_cases hrep : ops.reputation_engine_present (ops.clear_pending_transactions
            s.chain_state) = true <;>
          by_cases hrdy : (!s.epoch_constants_present || !s.vrf_ctx_present
              || !s.secp_present) = true <;>
          rcases hbc : s.best_candidate with _ | cand <;>
          by_cases hcp : checkpoint > 0 <;>
          simp [handle_epoch_notification, hsm, hpbr, hce, hrep, hrdy, hbc, hcp] at h
      · by_cases hdiff : checkpoint - prev = 1
        · by_cases hrep : ops.reputation_engine_present (ops.clear_pending_transactions
              s.chain_state) = true <;>
            by_cases hrdy : (!s.epoch_constants_present || !s.vrf_ctx_present
                || !s.secp_present) = true <;>
            rcases hbc : s.best_candidate with _ | cand <;>
            by_cases hcp : checkpoint > 0 <;>
            simp [handle_epoch_notification, hsm, hpbr, hce, hdiff, hrep, hrdy,
              hbc, hcp] at h
        · by_cases hci : ops.chain_info_present (ops.clear_pending_transactions
              s.chain_state) = true <;>
            simp [handle_epoch_notification, hsm, hpbr, hce, hdiff, hci] at h
  · rfl

set_option maxHeartbeats 1000000 in
theorem epoch_notification_no_addtemp (ops : ChainOps σ) (s : CMState σ)
    (checkpoint : Nat) :
    Effect.AddTempSuperblockVotes ∉ (handle_epoch_notification ops s checkpoint).2 := by
  rcases hsm : s.sm_state
  · rcases hpbr : s.peers_beacons_received <;>
      rcases hce : s.current_epoch with _ | prev <;>
      by_cases hci : ops.chain_info_present (ops.clear_pending_transactions
          s.chain_state) = true <;>
      first
        | (by_cases hdiff : checkpoint - prev = 1 <;>
            simp [handle_epoch_notification, hsm, hpbr, hce, hci, hdiff])
        | simp [handle_epoch_notification, hsm, hpbr, hce, hci]
  · rcases hpbr : s.peers_beacons_received <;>
      rcases hce : s.current_epoch with _ | prev <;>
      by_cases hci : ops.chain_info_present (ops.clear_pending_transactions
          s.chain_state) = true <;>
      first
        | (by_cases hdiff : checkpoint - prev = 1 <;>
            simp [handle_epoch_notification, hsm, hpbr, hce, hci, hdiff])
        | simp [handle_epoch_notification, hsm, hpbr, hce, hci]
  · rcases hpbr : s.peers_beacons_received
    · rcases hce : s.current_epoch with _ | prev <;>
        by_cases hci : ops.chain_info_present (ops.clear_pending_transactions
            s.chain_state) = true <;>
        first
          | (by_cases hdiff : checkpoint - prev = 1 <;>
              simp [handle_epoch_notification, hsm, hpbr, hce, hci, hdiff])
          | simp [handle_epoch_notification, hsm, hpbr, hce, hci]
    · rcases hce : s.current_epoch with _ | prev
      · by_cases hrep : ops.reputation_engine_present (ops.clear_pending_transactions
            s.chain_state) = true <;>
          by_cases hrdy : (!s.epoch_constants_present || !s.vrf_ctx_present
              || !s.secp_present) = true <;>
          rcases hbc : s.best_candidate with _ | cand <;>
          by_cases hcp : checkpoint > 0 <;>
          rcases hmine : s.mining_enabled <;>
          simp [handle_epoch_notification, hsm, hpbr, hce, hrep, hrdy, hbc, hcp, hmine]
      · by_cases hdiff : checkpoint - prev = 1
        · by_cases hrep : ops.reputation_engine_present (ops.clear_pending_transactions
              s.chain_state) = true <;>
            by_cases hrdy : (!s.epoch_constants_present || !s.vrf_ctx_present
                || !s.secp_present) = true <;>
            rcases hbc : s.best_candidate with _ | cand <;>
            by_cases hcp : checkpoint > 0 <;>
            rcases hmine : s.mining_enabled <;>
            simp [handle_epoch_notification, hsm, hpbr, hce, hdiff, hrep, hrdy,
              hbc, hcp, hmine]
        · by_cases hci : ops.chain_info_present (ops.clear_pending_transactions
              s.chain_state) = true <;>
            simp [handle_epoch_notification, hsm, hpbr, hce, hdiff, hci]
  · rcases hpbr : s.peers_beacons_received
    · rcases hce : s.current_epoch with _ | prev <;>
        by_cases hci : ops.chain_info_present (ops.clear_pending_transactions
            s.chain_state) = true <;>
        first
          | (by_cases hdiff : checkpoint - prev = 1 <;>
              simp [handle_epoch_notification, hsm, hpbr, hce, hci, hdiff])
          | simp [handle_epoch_notification, hsm, hpbr, hce, hci]
    · rcases hce : s.current_epoch with _ | prev
      · by_cases hrep : ops.reputation_engine_present (ops.clear_pending_transactions
            s.chain_state) = true <;>
          by_cases hrdy : (!s.epoch_constants_present || !s.vrf_ctx_present
              || !s.secp_present) = true <;>
          rcases hbc : s.best_candidate with _ | cand <;>
          by_cases hcp : checkpoint > 0 <;>
          rcases hmine : s.mining_enabled <;>
          simp [handle_epoch_notification, hsm, hpbr, hce, hrep, hrdy, hbc, hcp, hmine]
      · by_cases hdiff : checkpoint - prev = 1
        · by_cases hrep : ops.reputation_engine_present (ops.clear_pending_transactions
              s.chain_state) = true <;>
            by_cases hrdy : (!s.epoch_constants_present || !s.vrf_ctx_present
                || !s.secp_present) = true <;>
            rcases hbc : s.best_candidate with _ | cand <;>
            by_cases hcp : checkpoint > 0 <;>
            rcases hmine : s.mining_enabled <;>
            simp [handle_epoch_notification, hsm, hpbr, hce, hdiff, hrep, hrdy,
              hbc, hcp, hmine]
        · by_cases hci : ops.chain_info_present (ops.clear_pending_transactions
              s.chain_state) = true <;>
            simp [handle_epoch_notification, hsm, hpbr, hce, hdiff, hci]

theorem add_blocks_no_synced_entry (ops : ChainOps σ) (s : CMState σ)
    (blocks : List Block)
    (h : (handle_add_blocks ops s blocks).1.sm_state = StateMachine.Synced) :
    s.sm_state = StateMachine.Synced := by
  rcases hsm : s.sm_state
  · -- WaitingConsensus
    exfalso
    rcases blocks with _ | ⟨block, _ | ⟨b2, rest⟩⟩
    · simp [handle_add_blocks, hsm] at h
    · by_cases hgen : block.hash = ops.genesis_hash
      · rcases hpr : ops.process_requested_block s.chain_state block with ⟨ok, cs⟩
        cases ok <;> simp [handle_add_blocks, hsm, hgen, hpr] at h
      · simp [handle_add_blocks, hsm, hgen] at h
    · simp [handle_add_blocks, hsm] at h
  · -- Synchronizing
    exfalso
    rcases htg : s.sync_target with _ | t
    · simp [handle_add_blocks, hsm, htg] at h
    · by_cases hbl : blocks = []
      · simp [handle_add_blocks, hsm, htg, hbl] at h
      · rcases hsp : split_blocks_batch_at_target blocks.tail (s.current_epoch.getD 0) t
            ops.superblock_period with ⟨bl1, bl2o, bl3o, bl4o, e2⟩
        rcases hpr : ops.process_blocks_batch s.chain_state t bl1 with ⟨ok, npb, cs⟩
        cases ok
        · simp [handle_add_blocks, hsm, htg, hbl, hsp, hpr] at h
        · rcases bl2o with _ | bl2
          · simp [handle_add_blocks, hsm, htg, hbl, hsp, hpr] at h
          · simp only [handle_add_blocks, hsm, htg, if_neg hbl, hsp, hpr] at h
            simp only [Bool.not_true, Bool.false_eq_true, if_false, ne_eq] at h
            repeat' split at h
            all_goals simp_all [add_blocks_process_part2_sm]
  · -- AlmostSynced
    exfalso
    simp [handle_add_blocks, hsm] at h
  · -- Synced
    rfl

theorem add_blocks_no_addtemp (ops : ChainOps σ) (s : CMState σ)
    (blocks : List Block) :
    Effect.AddTempSuperblockVotes ∉ (handle_add_blocks ops s blocks).2 := by
  rcases hsm : s.sm_state
  · rcases blocks with _ | ⟨block, _ | ⟨b2, rest⟩⟩
    · simp [handle_add_blocks, hsm]
    · by_cases hgen : block.hash = ops.genesis_hash
      · rcases hpr : ops.process_requested_block s.chain_state block with ⟨ok, cs⟩
        cases ok <;> simp [handle_add_blocks, hsm, hgen, hpr]
      · simp [handle_add_blocks, hsm, hgen]
    · simp [handle_add_blocks, hsm]
  · rcases htg : s.sync_target with _ | t
    · simp [handle_add_blocks, hsm, htg]
    · by_cases hbl : blocks = []
      · simp [handle_add_blocks, hsm, htg, hbl]
      · rcases hsp : split_blocks_batch_at_target blocks.tail (s.current_epoch.getD 0) t
            ops.superblock_period with ⟨bl1, bl2o, bl3o, bl4o, e2⟩
        rcases hpr : ops.process_blocks_batch s.chain_state t bl1 with ⟨ok, npb, cs⟩
        cases ok
        · simp [handle_add_blocks, hsm, htg, hbl, hsp, hpr]
        · rcases bl2o with _ | bl2
          · simp [handle_add_blocks, hsm, htg, hbl, hsp, hpr]
          · simp only [handle_add_blocks, hsm, htg, if_neg hbl, hsp, hpr]
            simp only [Bool.not_true, Bool.false_eq_true, if_false, ne_eq]
            repeat' split
            all_goals simp
  · simp [handle_add_blocks, hsm]
  · simp [handle_add_blocks, hsm]

set_option maxHeartbeats 1000000 in
theorem peers_beacons_synced_entry (ops : ChainOps σ) (s : CMState σ)
    (peers_beacons : PeersBeacons)
    (h : (handle_peers_beacons ops s peers_beacons).1.sm_state = StateMachine.Synced)
    (hne : s.sm_state ≠ StateMachine.Synced) :
    s.sm_state = StateMachine.AlmostSynced
    ∧ (∃ c, peers_beacons.superblock_consensus s.consensus_c = some c
        ∧ c.1.highest_block_checkpoint = ops.get_chain_beacon s.chain_state)
    ∧ (handle_peers_beacons ops s peers_beacons).2.2
        = [Effect.AddTempSuperblockVotes] := by
  rcases hsm : s.sm_state
  · -- WaitingConsensus never dispatches into Synced
    exfalso
    rcases hbc : peers_beacons.superblock_consensus s.consensus_c with _ | ⟨lb, maj⟩
    · by_cases hpb : peers_beacons.pb = [] <;>
        simp [handle_peers_beacons, hpb, hbc, hsm, apply_ite] at h
    · by_cases hpb : peers_beacons.pb = [] <;>
        by_cases c1 : lb.highest_block_checkpoint.hash_prev_block
            = ops.bootstrap_hash <;>
        by_cases c2 : ops.get_chain_beacon s.chain_state
            = lb.highest_block_checkpoint <;>
        by_cases c3 : (ops.get_chain_beacon s.chain_state).checkpoint
              = lb.highest_block_checkpoint.checkpoint
            ∧ (ops.get_chain_beacon s.chain_state).hash_prev_block
              ≠ lb.highest_block_checkpoint.hash_prev_block <;>
        rcases hfind : s.candidates.find? (fun (kv : Nat × Block) =>
            decide (kv.1 = lb.highest_block_checkpoint.hash_prev_block))
          with _ | kv <;>
        simp [handle_peers_beacons, hpb, hbc, hsm, c1, c2, c3, hfind] at h <;>
        (try (split at h <;> simp_all))
  · -- Synchronizing never dispatches into Synced
    exfalso
    rcases hbc : peers_beacons.superblock_consensus s.consensus_c with _ | ⟨lb, maj⟩
    · by_cases hpb : peers_beacons.pb = [] <;>
        simp [handle_peers_beacons, hpb, hbc, hsm, apply_ite] at h
    · by_cases hpb : peers_beacons.pb = [] <;>
        by_cases c2 : ops.get_chain_beacon s.chain_state
            = lb.highest_block_checkpoint <;>
        by_cases c3 : (ops.get_chain_beacon s.chain_state).checkpoint
              = lb.highest_block_checkpoint.checkpoint
            ∧ (ops.get_chain_beacon s.chain_state).hash_prev_block
              ≠ lb.highest_block_checkpoint.hash_prev_block <;>
        simp [handle_peers_beacons, apply_ite, hpb, hbc, hsm, c2, c3] at h
  · -- AlmostSynced: the transition fires exactly on a consensus equal to
    -- our chain beacon, replaying the deferred superblock votes
    rcases hbc : peers_beacons.superblock_consensus s.consensus_c with _ | ⟨lb, maj⟩
    · exfalso
      by_cases hpb : peers_beacons.pb = [] <;>
        simp [handle_peers_beacons, hpb, hbc, hsm, apply_ite] at h
    · by_cases heqb : lb.highest_block_checkpoint = ops.get_chain_beacon s.chain_state
      · refine ⟨rfl, ⟨(lb, maj), rfl, heqb⟩, ?_⟩
        by_cases hpb : peers_beacons.pb = [] <;>
          simp [handle_peers_beacons, hpb, hbc, hsm, heqb, apply_ite]
      · exfalso
        by_cases hpb : peers_beacons.pb = [] <;>
          simp [handle_peers_beacons, hpb, hbc, hsm, heqb, apply_ite] at h
  · exact absurd hsm hne

set_option maxHeartbeats 1000000 in
theorem peers_beacons_no_addtemp (ops : ChainOps σ) (s : CMState σ)
    (peers_beacons : PeersBeacons)
    (hsafe : ¬ (s.sm_state = StateMachine.AlmostSynced
        ∧ (handle_peers_beacons ops s peers_beacons).1.sm_state
            = StateMachine.Synced)) :
    Effect.AddTempSuperblockVotes ∉ (handle_peers_beacons ops s peers_beacons).2.2 := by
  rcases hsm : s.sm_state
  · rcases hbc : peers_beacons.superblock_consensus s.consensus_c with _ | ⟨lb, maj⟩
    · by_cases hpb : peers_beacons.pb = [] <;>
        simp [handle_peers_beacons, hpb, hbc, hsm, apply_ite]
    · by_cases hpb : peers_beacons.pb = [] <;>
        by_cases c1 : lb.highest_block_checkpoint.hash_prev_block
            = ops.bootstrap_hash <;>
        by_cases c2 : ops.get_chain_beacon s.chain_state
            = lb.highest_block_checkpoint <;>
        by_cases c3 : (ops.get_chain_beacon s.chain_state).checkpoint
              = lb.highest_block_checkpoint.checkpoint
            ∧ (ops.get_chain_beacon s.chain_state).hash_prev_block
              ≠ lb.highest_block_checkpoint.hash_prev_block <;>
        rcases hfind : s.candidates.find? (fun (kv : Nat × Block) =>
            decide (kv.1 = lb.highest_block_checkpoint.hash_prev_block))
          with _ | kv <;>
        rcases hsw : s.sync_waiting_for_add_blocks_since with _ | sw <;>
        rcases hcep : s.current_epoch with _ | ce <;>
        simp [handle_peers_beacons, hpb, hbc, hsm, c1, c2, c3, hfind, hsw, hcep] <;>
        (try (repeat' split)) <;> (try simp_all)
  · rcases hbc : peers_beacons.superblock_consensus s.consensus_c with _ | ⟨lb, maj⟩
    · by_cases hpb : peers_beacons.pb = [] <;>
        rcases hsw : s.sync_waiting_for_add_blocks_since with _ | sw <;>
        rcases hcep : s.current_epoch with _ | ce <;>
        simp [handle_peers_beacons, hpb, hbc, hsm, hsw, hcep, apply_ite] <;>
        (try (repeat' split)) <;> (try simp_all)
    · by_cases hpb : peers_beacons.pb = [] <;>
        by_cases c2 : ops.get_chain_beacon s.chain_state
            = lb.highest_block_checkpoint <;>
        by_cases c3 : (ops.get_chain_beacon s.chain_state).checkpoint
              = lb.highest_block_checkpoint.checkpoint
            ∧ (ops.get_chain_beacon s.chain_state).hash_prev_block
              ≠ lb.highest_block_checkpoint.hash_prev_block <;>
        rcases hsw : s.sync_waiting_for_add_blocks_since with _ | sw <;>
        rcases hcep : s.current_epoch with _ | ce <;>
        simp [handle_peers_beacons, apply_ite, hpb, hbc, hsm, c2, c3, hsw, hcep] <;>
        (try (repeat' split)) <;> (try simp_all)
  · rcases hbc : peers_beacons.superblock_consensus s.consensus_c with _ | ⟨lb, maj⟩
    · by_cases hpb : peers_beacons.pb = [] <;>
        simp [handle_peers_beacons, hpb, hbc, hsm, apply_ite]
    · by_cases heqb : lb.highest_block_checkpoint = ops.get_chain_beacon s.chain_state
      · exact absurd
          ⟨hsm, by
            by_cases hpb : peers_beacons.pb = [] <;>
              simp [handle_peers_beacons, hpb, hbc, hsm, heqb, apply_ite]⟩
          hsafe
      · by_cases hpb : peers_beacons.pb = [] <;>
          simp [handle_peers_beacons, hpb, hbc, hsm, heqb, apply_ite]
  · rcases hbc : peers_beacons.superblock_consensus s.consensus_c with _ | ⟨lb, maj⟩
    · by_cases hpb : peers_beacons.pb = [] <;>
        simp [handle_peers_beacons, hpb, hbc, hsm, apply_ite]
    · by_cases heqb : lb.highest_block_checkpoint = ops.get_chain_beacon s.chain_state <;>
        by_cases hpb : peers_beacons.pb = [] <;>
        simp [handle_peers_beacons, hpb, hbc, hsm, heqb, apply_ite]

/-- C4: across the modelled chain-manager handlers the state machine
enters Synced only through the AlmostSynced → Synced transition of the
PeersBeacons handler, taken exactly when the computed consensus block
equals our chain beacon, and on that transition the deferred superblock
votes are replayed (the AddTempSuperblockVotes effect is emitted, exactly
once as the only effect); the epoch-tick and AddBlocks handlers never set
the state to Synced and never replay the deferred votes, and the
PeersBeacons handler never replays them outside that transition. -/
theorem claim_c4_synced_entry_only {σ : Type} (ops : ChainOps σ) :
    (∀ (s : CMState σ) (checkpoint : Nat),
      (handle_epoch_notification ops s checkpoint).1.sm_state = StateMachine.Synced →
        s.sm_state = StateMachine.Synced)
    ∧ (∀ (s : CMState σ) (checkpoint : Nat),
        Effect.AddTempSuperblockVotes ∉ (handle_epoch_notification ops s checkpoint).2)
    ∧ (∀ (s : CMState σ) (blocks : List Block),
        (handle_add_blocks ops s blocks).1.sm_state = StateMachine.Synced →
          s.sm_state = StateMachine.Synced)
    ∧ (∀ (s : CMState σ) (blocks : List Block),
        Effect.AddTempSuperblockVotes ∉ (handle_add_blocks ops s blocks).2)
    ∧ (∀ (s : CMState σ) (peers_beacons : PeersBeacons),
        (handle_peers_beacons ops s peers_beacons).1.sm_state = StateMachine.Synced →
        s.sm_state ≠ StateMachine.Synced →
        s.sm_state = StateMachine.AlmostSynced
        ∧ (∃ c, peers_beacons.superblock_consensus s.consensus_c = some c
            ∧ c.1.highest_block_checkpoint = ops.get_chain_beacon s.chain_state)
        ∧ (handle_peers_beacons ops s peers_beacons).2.2
            = [Effect.AddTempSuperblockVotes])
    ∧ (∀ (s : CMState σ) (peers_beacons : PeersBeacons),
        ¬ (s.sm_state = StateMachine.AlmostSynced
            ∧ (handle_peers_beacons ops s peers_beacons).1.sm_state
                = StateMachine.Synced) →
        Effect.AddTempSuperblockVotes
          ∉ (handle_peers_beacons ops s peers_beacons).2.2) :=
  ⟨fun s checkpoint h => epoch_notification_no_synced_entry ops s checkpoint h,
   fun s checkpoint => epoch_notification_no_addtemp ops s checkpoint,
   fun s blocks h => add_blocks_no_synced_entry ops s blocks h,
   fun s blocks => add_blocks_no_addtemp ops s blocks,
   fun s peers_beacons h hne => peers_beacons_synced_entry ops s peers_beacons h hne,
   fun s peers_beacons hsafe => peers_beacons_no_addtemp ops s peers_beacons hsafe⟩

/-- A single-peer snapshot with outbound limit 1 agreeing with our chain
beacon `⟨100,7⟩` and superblock beacon `⟨10,8⟩`: with τ = 60 its consensus
is `(⟨⟨100,7⟩,⟨10,8⟩⟩, true)`, matching `natOps.get_chain_beacon`. -/
def c4pb : PeersBeacons :=
  { pb := [(1, some ⟨⟨100, 7⟩, ⟨10, 8⟩⟩)]
    outbound_limit := some 1 }

/-- Witness for C4: a Synced node stays Synced across an epoch tick and an
empty AddBlocks batch with no vote replay; an AlmostSynced node receiving
the agreeing snapshot `c4pb` transitions to Synced with exactly the
vote-replay effect; a Synced node receiving the same snapshot emits no
replay. -/
theorem claim_c4_synced_entry_only_witness :
    ((handle_epoch_notification natOps (natState StateMachine.Synced) 51).1.sm_state
        = StateMachine.Synced
      ∧ (natState StateMachine.Synced).sm_state = StateMachine.Synced)
    ∧ Effect.AddTempSuperblockVotes
        ∉ (handle_epoch_notification natOps (natState StateMachine.WaitingConsensus) 51).2
    ∧ ((handle_add_blocks natOps (natState StateMachine.Synced) []).1.sm_state
        = StateMachine.Synced
      ∧ (natState StateMachine.Synced).sm_state = StateMachine.Synced)
    ∧ Effect.AddTempSuperblockVotes
        ∉ (handle_add_blocks natOps (natState StateMachine.Synchronizing) [mkBlock 0 0]).2
    ∧ ((handle_peers_beacons natOps (natState StateMachine.AlmostSynced) c4pb).1.sm_state
          = StateMachine.Synced
      ∧ (natState StateMachine.AlmostSynced).sm_state ≠ StateMachine.Synced
      ∧ ((natState StateMachine.AlmostSynced).sm_state = StateMachine.AlmostSynced
        ∧ (∃ c, c4pb.superblock_consensus
              (natState StateMachine.AlmostSynced).consensus_c = some c
            ∧ c.1.highest_block_checkpoint
              = natOps.get_chain_beacon (natState StateMachine.AlmostSynced).chain_state)
        ∧ (handle_peers_beacons natOps (natState StateMachine.AlmostSynced) c4pb).2.2
            = [Effect.AddTempSuperblockVotes]))
    ∧ (¬ ((natState StateMachine.Synced).sm_state = StateMachine.AlmostSynced
          ∧ (handle_peers_beacons natOps (natState StateMachine.Synced) c4pb).1.sm_state
              = StateMachine.Synced)
      ∧ Effect.AddTempSuperblockVotes
          ∉ (handle_peers_beacons natOps (natState StateMachine.Synced) c4pb).2.2) :=
  ⟨⟨by decide,
    (claim_c4_synced_entry_only natOps).1 (natState StateMachine.Synced) 51 (by decide)⟩,
   (claim_c4_synced_entry_only natOps).2.1 (natState StateMachine.WaitingConsensus) 51,
   ⟨by decide,
    (claim_c4_synced_entry_only natOps).2.2.1 (natState StateMachine.Synced) []
      (by decide)⟩,
   (claim_c4_synced_entry_only natOps).2.2.2.1 (natState StateMachine.Synchronizing)
     [mkBlock 0 0],
   ⟨by decide, by decide,
    (claim_c4_synced_entry_only natOps).2.2.2.2.1 (natState StateMachine.AlmostSynced)
      c4pb (by decide) (by decide)⟩,
   ⟨by decide,
    (claim_c4_synced_entry_only natOps).2.2.2.2.2 (natState StateMachine.Synced)
      c4pb (by decide)⟩⟩

end Witnet
